import Mathlib

/-!
Verification development for the SimSalabim intraday trading core.

This file gives a shallow embedding of the risk-assessment and execution
subsystems (`app/risk/models.py`, `app/risk/risk_engine.py`,
`app/execution/models.py`, `app/execution/execution_engine.py`,
`app/execution/sync_state.py`) and proves properties of that embedding.

Modelling conventions:
* Python floats are modelled as `ℚ` (the code only does field arithmetic and
  order comparisons on them).
* `datetime` values are modelled as rational timestamps on a single timeline;
  the local calendar date of a timestamp `t` (in minutes) is `⌊t / 1440⌋`,
  matching `datetime(now.year, now.month, now.day)` / `.date()` for the
  engine's fixed timezone.  The risk engine measures time in minutes (its
  only duration is `timedelta(minutes=...)`); the execution engine measures
  time in seconds (its only duration is `timedelta(seconds=...)`).
* Python `dict`s used as keyed maps are modelled as association lists with
  insertion-order semantics (`ainsert` replaces in place or appends, matching
  `d[k] = v`; `aerase` matches `d.pop(k, None)`).
* Python truthiness on numbers is `≠ 0`, on strings `≠ ""`, on `None` false.
-/

namespace Sim

/-- Direction of a trade or position (`app.core.enums.Side`). -/
inductive Side where
  | LONG
  | SHORT
deriving DecidableEq, Repr

/-- Python `abs` on a float, as used by the risk/execution code. -/
def pyabs (x : ℚ) : ℚ := if x < 0 then -x else x

/-- Python `str.lower()` (over the character list, so it computes). -/
def py_lower (s : String) : String := String.mk (s.data.map Char.toLower)

/-- Lookup in an insertion-ordered dict modelled as an association list. -/
def alookup {α : Type} (k : String) : List (String × α) → Option α
  | [] => none
  | (k', v) :: rest => if k' = k then some v else alookup k rest

/-- Dict assignment `d[k] = v`: replace in place if present, else append. -/
def ainsert {α : Type} (k : String) (v : α) (m : List (String × α)) : List (String × α) :=
  if (alookup k m).isSome then m.map (fun p => if p.1 = k then (k, v) else p) else m ++ [(k, v)]

/-- Dict removal `d.pop(k, None)`. -/
def aerase {α : Type} (k : String) (m : List (String × α)) : List (String × α) :=
  m.filter (fun p => decide (p.1 ≠ k))

/-- In-place mutation of the value stored under `k`, if present. -/
def amodify {α : Type} (k : String) (f : α → α) (m : List (String × α)) : List (String × α) :=
  m.map (fun p => if p.1 = k then (k, f p.2) else p)

/-- Local calendar date of a timestamp, in days (`datetime(...).date()`). -/
def date_of (t : ℚ) : ℤ := ⌊t / 1440⌋

/-- Optional trailing-stop parameters read out of `trailing_params` by
`RiskEngine.apply_trailing_stop` (`none` models an absent dict key). -/
structure TrailingParams where
  atr_override : Option ℚ := none
  trail_atr_mult : Option ℚ := none
  trail_percent : Option ℚ := none
  dynamic_sl_price : Option ℚ := none
deriving DecidableEq, Repr

/-- The fields of `app.market.models.MarketState` consumed by the risk and
execution engines (mid price, spread, depth, ATRs, average slippage). -/
structure MarketState where
  symbol : String
  mid_price : ℚ
  spread_bps : ℚ := 0
  depth_pm1_usd : ℚ := 0
  ATR_14_5m : ℚ := 0
  atr_q_5m : ℚ := 0
  avg_slippage_bps : ℚ := 0
deriving DecidableEq, Repr

/-- `app.risk.models.PositionState`.  The `tp_state` entry of the Python
`metadata` dict is modelled by the two booleans `tp1_fired` / `tp2_fired`;
`legs` and `unrealized_pnl` are not consumed by the verified operations and
are omitted. -/
structure PositionState where
  symbol : String
  strategy_id : String
  side : Side
  size : ℚ
  entry_price : ℚ
  open_time : ℚ
  initial_sl_price : ℚ
  current_sl_price : ℚ
  trailing_mode : Option String := none
  trailing_params : TrailingParams := {}
  tp_levels : List (ℚ × ℚ) := []
  time_stop_at : Option ℚ := none
  tp1_fired : Bool := false
  tp2_fired : Bool := false
  realized_pnl : ℚ := 0
deriving DecidableEq, Repr

/-- `PositionState.risk_per_unit`: price distance between entry and SL (1R). -/
def PositionState.risk_per_unit (p : PositionState) : ℚ :=
  pyabs (p.entry_price - p.initial_sl_price)

/-- `PositionState.update_sl`: monotonic SL update respecting side semantics. -/
def PositionState.update_sl (p : PositionState) (new_price : ℚ) : PositionState :=
  match p.side with
  | Side.LONG => if new_price > p.current_sl_price then { p with current_sl_price := new_price } else p
  | Side.SHORT => if new_price < p.current_sl_price then { p with current_sl_price := new_price } else p

/-- `PositionState.remaining_size`. -/
def PositionState.remaining_size (p : PositionState) : ℚ := p.size

/-- `PositionState.reduce`: reduce size by `fraction`, returning the closed
quantity.  The source raises `ValueError` for `fraction` outside `(0, 1]`;
every call site passes `0.5`, `0.25` or `1.0`, so the guard is unreachable
and is not modelled. -/
def PositionState.reduce (p : PositionState) (fraction : ℚ) : PositionState × ℚ :=
  let closed_qty := p.size * fraction
  ({ p with size := max 0 (p.size - closed_qty) }, closed_qty)

/-- `app.risk.models.RiskLimits`. -/
structure RiskLimits where
  virtual_equity_usdt : ℚ
  per_trade_risk_pct : ℚ
  max_daily_loss_pct : ℚ
  max_concurrent_positions : ℤ
  cooldown_after_loss_min : ℚ
  max_leverage : ℚ
  max_slippage_bps : Option ℚ := none
  symbol_max_notional_usdt : List (String × ℚ) := []
deriving DecidableEq, Repr

/-- `RiskLimits.risk_amount` (`override is not None` checks, not truthiness). -/
def RiskLimits.risk_amount (l : RiskLimits) (override_pct : Option ℚ) (equity : Option ℚ) : ℚ :=
  (override_pct.getD l.per_trade_risk_pct) * (equity.getD l.virtual_equity_usdt)

/-- `RiskLimits.max_notional`: `min(base, sym_cap) if sym_cap else base`,
so a missing or zero per-symbol cap falls back to `equity * leverage`. -/
def RiskLimits.max_notional (l : RiskLimits) (symbol : String) : ℚ :=
  let base_cap := l.virtual_equity_usdt * l.max_leverage
  match alookup symbol l.symbol_max_notional_usdt with
  | some sym_cap => if sym_cap ≠ 0 then min base_cap sym_cap else base_cap
  | none => base_cap

/-- `RiskLimits.daily_loss_limit` property. -/
def RiskLimits.daily_loss_limit (l : RiskLimits) : ℚ :=
  -l.virtual_equity_usdt * l.max_daily_loss_pct

/-- `app.risk.models.DailyRiskState`; `session_date` stores the local
calendar date of the session start. -/
structure DailyRiskState where
  session_date : ℤ
  realized_pnl : ℚ := 0
deriving DecidableEq, Repr

/-- `DailyRiskState.reset`. -/
def DailyRiskState.reset (_d : DailyRiskState) (new_session : ℤ) : DailyRiskState :=
  { session_date := new_session, realized_pnl := 0 }

/-- `DailyRiskState.breach_limit`. -/
def DailyRiskState.breach_limit (d : DailyRiskState) (l : RiskLimits) : Bool :=
  decide (d.realized_pnl ≤ l.daily_loss_limit)

/-- The metadata keys of a `Signal` consumed by risk/execution code
(`none` models an absent key). -/
structure SignalMetadata where
  entry_execution : Option String := none
  entry_mode : Option String := none
  entry_type_override : Option String := none
  max_slippage_bps : Option ℚ := none
  virtual_equity : Option ℚ := none
  entry_ttl_seconds : Option ℚ := none
  time_stop_bar_seconds : Option ℚ := none
  time_stop_bars : Option ℤ := none
  trailing_mode : Option String := none
  trailing_params : Option TrailingParams := none
deriving DecidableEq, Repr

/-- `app.strategies.base.Signal` (`entry_type` is the strategy taxonomy tag,
unused by risk logic; take-profit levels are `(price, size_pct)` pairs). -/
structure Signal where
  symbol : String
  side : Side
  entry_type : String
  strategy_id : String
  entry_price : ℚ
  target_risk_pct : Option ℚ := none
  target_notional : Option ℚ := none
  sl_price : Option ℚ := none
  tp_levels : List (ℚ × ℚ) := []
  time_stop_bars : Option ℤ := none
  trailing_mode : Option String := none
  trailing_params : Option TrailingParams := none
  metadata : SignalMetadata := {}
deriving DecidableEq, Repr

/-- Python `or` on two optional strings (truthiness: non-empty string). -/
def pyOrS (a b : Option String) : Option String :=
  match a with
  | some s => if s ≠ "" then a else b
  | none => b

/-- `RiskEngine._entry_mode`:
`meta.get("entry_execution") or meta.get("entry_mode")` falling back to
`meta.get("entry_type_override", "market_with_cap")`. -/
def Signal.entry_mode_str (s : Signal) : String :=
  (pyOrS (pyOrS s.metadata.entry_execution s.metadata.entry_mode)
    (some (s.metadata.entry_type_override.getD "market_with_cap"))).getD "market_with_cap"

/-- `app.risk.models.RiskDecision`. -/
structure RiskDecision where
  signal : Signal
  strategy_id : String
  symbol : String
  side : Side
  entry_type : String
  size : Option ℚ
  notional : Option ℚ
  sl_price : Option ℚ
  tp_levels : List (ℚ × ℚ)
  trailing_mode : Option String
  trailing_params : Option TrailingParams
  time_stop_bars : Option ℤ
  approved : Bool
  risk_amount : ℚ := 0
  reason : Option String := none
  metadata : SignalMetadata := {}
deriving DecidableEq, Repr

/-- `RiskDecision.reject`. -/
def RiskDecision.reject (d : RiskDecision) (reason : String) : RiskDecision :=
  { d with approved := false, reason := some reason, size := none, notional := none }

/-- Mutable state of `app.risk.risk_engine.RiskEngine`: limits, the strategy
priority map (`StrategyPriority`), the daily accumulator and the cooldown. -/
structure RiskEngineState where
  limits : RiskLimits
  priorities : List (String × ℤ) := []
  daily_state : DailyRiskState
  cooldown_until : Option ℚ := none
deriving DecidableEq, Repr

/-- `StrategyPriority.value`: configured priority or the big default. -/
def RiskEngineState.priority_value (st : RiskEngineState) (strategy_id : String) : ℤ :=
  (alookup strategy_id st.priorities).getD 10000

/-- `RiskEngine._roll_session`. -/
def RiskEngineState.roll_session (st : RiskEngineState) (now : ℚ) : RiskEngineState :=
  if date_of now ≠ st.daily_state.session_date then
    { st with daily_state := st.daily_state.reset (date_of now), cooldown_until := none }
  else st

/-- Stable insertion of a signal into a priority-sorted list (the element
being inserted precedes existing elements of equal priority only if it is
strictly smaller, matching the stability of Python's `sorted`). -/
def insert_by_priority (pr : String → ℤ) (s : Signal) : List Signal → List Signal
  | [] => [s]
  | t :: ts =>
    if pr s.strategy_id ≤ pr t.strategy_id then s :: t :: ts
    else t :: insert_by_priority pr s ts

/-- Stable sort by strategy priority, modelling
`sorted(signals, key=lambda s: self.priority.value(s.strategy_id))`. -/
def sort_by_priority (pr : String → ℤ) : List Signal → List Signal
  | [] => []
  | s :: rest => insert_by_priority pr s (sort_by_priority pr rest)

/-- First-occurrence-per-symbol filter, modelling `grouped.setdefault` over
the sorted list followed by `list(grouped.values())`. -/
def dedupe_by_symbol (seen : List String) : List Signal → List Signal
  | [] => []
  | s :: rest =>
    if s.symbol ∈ seen then dedupe_by_symbol seen rest
    else s :: dedupe_by_symbol (s.symbol :: seen) rest

/-- `RiskEngine._resolve_conflicts`. -/
def RiskEngineState.resolve_conflicts (st : RiskEngineState) (signals : List Signal) : List Signal :=
  dedupe_by_symbol [] (sort_by_priority (st.priority_value) signals)

/-- Truth of `self.cooldown_until and now < self.cooldown_until`. -/
def RiskEngineState.cooldown_active (st : RiskEngineState) (now : ℚ) : Bool :=
  match st.cooldown_until with
  | some c => decide (now < c)
  | none => false

/-- `RiskEngine._build_decision`. -/
def RiskEngineState.build_decision (st : RiskEngineState) (signal : Signal)
    (mkt : Option MarketState) (now : ℚ) : RiskDecision :=
  let decision : RiskDecision :=
    { signal := signal, strategy_id := signal.strategy_id, symbol := signal.symbol,
      side := signal.side, entry_type := signal.entry_mode_str, size := none, notional := none,
      sl_price := signal.sl_price, tp_levels := signal.tp_levels,
      trailing_mode := signal.trailing_mode, trailing_params := signal.trailing_params,
      time_stop_bars := signal.time_stop_bars, approved := true, risk_amount := 0,
      metadata := signal.metadata }
  if st.daily_state.breach_limit st.limits then decision.reject "daily_loss_limit"
  else if st.cooldown_active now then decision.reject "cooldown_active"
  else match signal.sl_price with
  | none => decision.reject "missing_sl_price"
  | some sl =>
    let risk_amount := st.limits.risk_amount signal.target_risk_pct signal.metadata.virtual_equity
    let decision := { decision with risk_amount := risk_amount }
    if risk_amount ≤ 0 then decision.reject "invalid_risk_amount"
    else
      -- continuation once the pre-clamp notional is known: clamp to the cap,
      -- underflow check, sizing, then the slippage guard
      let sized : ℚ → RiskDecision := fun notional0 =>
        let max_notional := st.limits.max_notional signal.symbol
        let notional := if notional0 > max_notional then max_notional else notional0
        if notional ≤ 0 then decision.reject "notional_underflow"
        else
          let decision :=
            { decision with
                notional := some notional
                size := some (notional / signal.entry_price) }
          match signal.metadata.max_slippage_bps <|> st.limits.max_slippage_bps, mkt with
          | some max_slip, some m =>
            if max_slip ≠ 0 ∧ max m.avg_slippage_bps (m.spread_bps * (1/2)) > max_slip then
              decision.reject "slippage_filter"
            else decision
          | _, _ => decision
      let distance := pyabs (signal.entry_price - sl)
      match signal.target_notional with
      | some tn =>
        if tn ≠ 0 then sized tn
        else if distance ≤ 0 then decision.reject "zero_sl_distance"
        else sized (risk_amount / distance * signal.entry_price)
      | none =>
        if distance ≤ 0 then decision.reject "zero_sl_distance"
        else sized (risk_amount / distance * signal.entry_price)

/-- Per-signal loop body of `RiskEngine.assess_signals`: builds each
decision, applies the greedy concurrency-slot check to approved decisions
for symbols not already held, and keeps every decision in order. -/
def RiskEngineState.assess_loop (st : RiskEngineState)
    (open_positions : List (String × PositionState)) (mkts : List (String × MarketState))
    (now : ℚ) : List Signal → ℤ → List RiskDecision
  | [], _ => []
  | signal :: rest, slots =>
    let decision := st.build_decision signal (alookup signal.symbol mkts) now
    if (alookup signal.symbol open_positions).isNone ∧ decision.approved = true then
      if slots ≤ 0 then
        decision.reject "max_concurrent_positions_reached" ::
          st.assess_loop open_positions mkts now rest slots
      else decision :: st.assess_loop open_positions mkts now rest (slots - 1)
    else decision :: st.assess_loop open_positions mkts now rest slots

/-- `RiskEngine.assess_signals`: rolls the session, resolves same-symbol
conflicts, computes the available slots and produces one decision per
surviving signal.  Returns the updated engine state and the decision list. -/
def RiskEngineState.assess_signals (st : RiskEngineState) (signals : List Signal)
    (open_positions : List (String × PositionState)) (mkts : List (String × MarketState))
    (now : ℚ) : RiskEngineState × List RiskDecision :=
  let st := st.roll_session now
  let filtered := st.resolve_conflicts signals
  let available_slots : ℤ :=
    max 0 (st.limits.max_concurrent_positions -
      ((open_positions.filter (fun p => decide (p.2.size ≠ 0))).length : ℤ))
  (st, st.assess_loop open_positions mkts now filtered available_slots)

/-- `RiskEngine.record_trade_pnl`. -/
def RiskEngineState.record_trade_pnl (st : RiskEngineState) (realized_pnl : ℚ) (when : ℚ) :
    RiskEngineState :=
  let st := st.roll_session when
  let st := { st with daily_state :=
    { st.daily_state with realized_pnl := st.daily_state.realized_pnl + realized_pnl } }
  if realized_pnl < 0 then
    { st with cooldown_until := some (when + st.limits.cooldown_after_loss_min) }
  else st

/-- `RiskEngine.apply_trailing_stop` (a method that reads no engine state:
it only mutates the position).  Returns the updated position; the Python
return value is its `current_sl_price`. -/
def apply_trailing_stop (position : PositionState) (mkt : MarketState) : PositionState :=
  let mode := py_lower (position.trailing_mode.getD "none")
  if mode = "none" then position
  else
    let last_price := mkt.mid_price
    let params := position.trailing_params
    if mode = "ema_atr" then
      let atr := params.atr_override.getD (if mkt.ATR_14_5m ≠ 0 then mkt.ATR_14_5m else mkt.atr_q_5m)
      let mult := params.trail_atr_mult.getD 2
      if atr ≠ 0 then
        let offset := atr * mult
        let target := if position.side = Side.LONG then last_price - offset else last_price + offset
        position.update_sl target
      else position
    else if mode = "percent" then
      let pct := params.trail_percent.getD (1/100)
      let candidate :=
        if position.side = Side.LONG then last_price * (1 - pct) else last_price * (1 + pct)
      position.update_sl candidate
    else
      match params.dynamic_sl_price with
      | some custom_target => position.update_sl custom_target
      | none => position

/-! Execution layer (`app/execution/models.py`, `app/execution/execution_engine.py`). -/

/-- `app.execution.models.EntryIntentStatus`. -/
inductive EntryIntentStatus where
  | PENDING
  | ACTIVE
  | FILLED
  | CANCELLED
  | REJECTED
deriving DecidableEq, Repr

/-- `app.execution.models.OrderStatus`. -/
inductive OrderStatus where
  | NEW
  | PARTIALLY_FILLED
  | FILLED
  | CANCELLED
  | REJECTED
deriving DecidableEq, Repr

/-- `app.core.enums.OrderType`. -/
inductive OrderType where
  | MARKET
  | LIMIT
  | POST_ONLY
deriving DecidableEq, Repr

/-- `app.core.enums.TimeInForce`. -/
inductive TimeInForce where
  | GTC
  | IOC
  | FOK
deriving DecidableEq, Repr

/-- `app.execution.models.ExecutionEventType`. -/
inductive ExecutionEventType where
  | ENTRY_FILLED
  | ENTRY_CANCELLED
  | ENTRY_REJECTED
  | EXIT_FILLED
  | STOP_LOSS
  | TAKE_PROFIT
  | TIME_STOP
deriving DecidableEq, Repr

/-- `app.execution.models.EntryIntent`.  `meta` is the merged metadata dict
built by `handle_risk_decision` (decision metadata plus the `setdefault`ed
time-stop/trailing entries; the `strategy_id` entry is redundant with the
`strategy_id` field and not modelled separately). -/
structure EntryIntent where
  intent_id : String
  symbol : String
  strategy_id : String
  side : Side
  size : ℚ
  entry_price : ℚ
  sl_price : ℚ
  tp_levels : List (ℚ × ℚ) := []
  entry_type : String
  created_at : ℚ
  ttl_seconds : ℚ
  status : EntryIntentStatus := EntryIntentStatus.PENDING
  meta : SignalMetadata := {}
  expected_slippage_bps : Option ℚ := none
  filled_qty : ℚ := 0
deriving DecidableEq, Repr

/-- `EntryIntent.expires_at`. -/
def EntryIntent.expires_at (i : EntryIntent) : ℚ := i.created_at + i.ttl_seconds

/-- `EntryIntent.is_expired`. -/
def EntryIntent.is_expired (i : EntryIntent) (now : ℚ) : Bool := decide (now ≥ i.expires_at)

/-- `app.execution.models.OrderIntent`. -/
structure OrderIntent where
  symbol : String
  side : Side
  order_type : OrderType
  quantity : ℚ
  price : Option ℚ := none
  time_in_force : TimeInForce := TimeInForce.GTC
  reduce_only : Bool := false
  client_order_id : Option String := none
  post_only : Bool := false
  trigger_price : Option ℚ := none
  comment : Option String := none
deriving DecidableEq, Repr

/-- `app.execution.models.ActiveOrder` (timestamps are not consumed by the
engine logic and are omitted). -/
structure ActiveOrder where
  order_id : String
  intent_id : String
  order : OrderIntent
  status : OrderStatus
  filled_qty : ℚ := 0
  avg_fill_price : ℚ := 0
deriving DecidableEq, Repr

/-- `app.execution.models.ExecutionReport`. -/
structure ExecutionReport where
  event : ExecutionEventType
  symbol : String
  side : Side
  quantity : ℚ
  price : ℚ
  timestamp : ℚ
  intent_id : Option String := none
  order_id : Option String := none
  reason : Option String := none
deriving DecidableEq, Repr

/-- The `OrderGateway` collaborator: `submit_order` either raises
(modelled `Except.error`) or returns an `ActiveOrder`. -/
def Gateway : Type := OrderIntent → Except Unit ActiveOrder

/-- Mutable state of `ExecutionEngine`: limits, default TTL and the three
live maps.  `submitted` is an observation trace recording every
`gateway.submit_order` call in order (it mirrors the `submitted` list of the
test fake gateway and lets theorems speak about orders reaching the
gateway). -/
structure ExecState where
  limits : RiskLimits
  default_entry_ttl_sec : ℚ := 300
  positions : List (String × PositionState) := []
  entry_intents : List (String × EntryIntent) := []
  active_orders : List (String × ActiveOrder) := []
  submitted : List OrderIntent := []
deriving DecidableEq, Repr

/-- In-place mutation `intent.status = s` of an intent object that may still
be stored in the live map (a no-op on the map when already popped). -/
def set_intent_status (st : ExecState) (k : String) (s : EntryIntentStatus) : ExecState :=
  { st with entry_intents := amodify k (fun i => { i with status := s }) st.entry_intents }

/-- `ExecutionEngine._calc_pnl`. -/
def calc_pnl (side : Side) (entry exit_price qty : ℚ) : ℚ :=
  let direction : ℚ := if side = Side.LONG then 1 else -1
  (exit_price - entry) * qty * direction

/-- `ExecutionEngine._hit_target`. -/
def hit_target (side : Side) (price target : ℚ) : Bool :=
  if side = Side.LONG then decide (price ≥ target) else decide (price ≤ target)

/-- `ExecutionEngine._hit_stop`. -/
def hit_stop (side : Side) (price stop_price : ℚ) : Bool :=
  if side = Side.LONG then decide (price ≤ stop_price) else decide (price ≥ stop_price)

/-- `ExecutionEngine._hit_retest`. -/
def hit_retest (side : Side) (price trigger_price : ℚ) : Bool :=
  if side = Side.LONG then decide (price ≤ trigger_price) else decide (price ≥ trigger_price)

/-- `ExecutionEngine._tp_prices`. -/
def tp_prices (position : PositionState) (r_value : ℚ) : ℚ × ℚ :=
  let entry := position.entry_price
  let direction : ℚ := if position.side = Side.LONG then 1 else -1
  (entry + direction * r_value, entry + direction * 2 * r_value)

/-- Result of `ExecutionEngine._close_fraction` on one position: the updated
position, whether it was popped from the live `positions` map (remaining
size at or below the `1e-8` dust threshold), and the emitted report.  The
`pnl_callback` invocation feeds the risk engine and is not part of the
execution state; the realized PnL it would carry is accumulated on the
position. -/
structure CloseOutcome where
  position : PositionState
  removed : Bool
  report : ExecutionReport
deriving DecidableEq, Repr

/-- `ExecutionEngine._close_fraction`. -/
def close_fraction (position : PositionState) (fraction price now : ℚ)
    (event : ExecutionEventType) (reason : String) : CloseOutcome :=
  if position.remaining_size ≤ 1/100000000 then
    { position := position, removed := false,
      report := { event := event, symbol := position.symbol, side := position.side,
                  quantity := 0, price := price, timestamp := now,
                  reason := some (reason ++ "_noop") } }
  else
    let (position, qty) := position.reduce (min 1 fraction)
    let pnl := calc_pnl position.side position.entry_price price qty
    let position := { position with realized_pnl := position.realized_pnl + pnl }
    let removed := decide (position.remaining_size ≤ 1/100000000)
    { position := position, removed := removed,
      report := { event := event, symbol := position.symbol, side := position.side,
                  quantity := qty, price := price, timestamp := now, reason := some reason } }

/-- `ExecutionEngine._check_stops`: stop-loss first (short-circuits the
time-stop), then time-stop if a deadline is set and elapsed. -/
def check_stops (position : PositionState) (last_price now : ℚ) :
    PositionState × Bool × List ExecutionReport :=
  if hit_stop position.side last_price position.current_sl_price then
    let o := close_fraction position 1 last_price now ExecutionEventType.STOP_LOSS "stop_loss"
    (o.position, o.removed, [o.report])
  else match position.time_stop_at with
  | some deadline =>
    if now ≥ deadline then
      let o := close_fraction position 1 last_price now ExecutionEventType.TIME_STOP "time_stop"
      (o.position, o.removed, [o.report])
    else (position, false, [])
  | none => (position, false, [])

/-- `ExecutionEngine._evaluate_position_targets`: TP1 (50%), then TP2 (25% of
the then-remaining size), then stop/time-stop checks.  Returns the updated
position, whether it was popped from the live map, and the reports. -/
def evaluate_position_targets (position : PositionState) (mkt : MarketState) (now : ℚ) :
    PositionState × Bool × List ExecutionReport :=
  let last_price := mkt.mid_price
  let r0 := position.risk_per_unit
  let r_value := if r0 ≤ 0 then max (pyabs (last_price * (5/1000))) (1/1000000) else r0
  let targets := tp_prices position r_value
  let step1 : PositionState × Bool × List ExecutionReport :=
    if position.tp1_fired = false ∧ hit_target position.side last_price targets.1 = true then
      let o := close_fraction position (1/2) last_price now ExecutionEventType.TAKE_PROFIT "tp1"
      ({ o.position with tp1_fired := true }, o.removed, [o.report])
    else (position, false, [])
  let step2 : PositionState × Bool × List ExecutionReport :=
    if step1.1.tp2_fired = false ∧ hit_target step1.1.side last_price targets.2 = true then
      let o := close_fraction step1.1 (1/4) last_price now ExecutionEventType.TAKE_PROFIT "tp2"
      ({ o.position with tp2_fired := true }, step1.2.1 || o.removed, step1.2.2 ++ [o.report])
    else step1
  let stops := check_stops step2.1 last_price now
  (stops.1, step2.2.1 || stops.2.1, step2.2.2 ++ stops.2.2)

/-- `ExecutionEngine._open_position_from_fill`: builds the `PositionState`
from the fill, stores it under the intent's symbol, marks the intent
`FILLED` in place and returns the `ENTRY_FILLED` report. -/
def open_position_from_fill (st : ExecState) (intent : EntryIntent)
    (fill_price qty now : ℚ) : ExecState × ExecutionReport :=
  let time_stop_at : Option ℚ :=
    match intent.meta.time_stop_bars with
    | some bars =>
      if bars ≠ 0 then some (now + (intent.meta.time_stop_bar_seconds.getD 300) * (bars : ℚ))
      else none
    | none => none
  let position : PositionState :=
    { symbol := intent.symbol, strategy_id := intent.strategy_id, side := intent.side,
      size := qty, entry_price := fill_price, open_time := now,
      initial_sl_price := intent.sl_price, current_sl_price := intent.sl_price,
      trailing_mode := intent.meta.trailing_mode,
      trailing_params := intent.meta.trailing_params.getD {},
      tp_levels := intent.tp_levels, time_stop_at := time_stop_at,
      tp1_fired := false, tp2_fired := false, realized_pnl := 0 }
  let st := { st with
    positions := ainsert intent.symbol position st.positions
    entry_intents := amodify intent.intent_id
      (fun i => { i with status := EntryIntentStatus.FILLED }) st.entry_intents }
  (st, { event := ExecutionEventType.ENTRY_FILLED, symbol := intent.symbol, side := intent.side,
         quantity := qty, price := fill_price, timestamp := now,
         intent_id := some intent.intent_id })

/-- `ExecutionEngine.handle_order_update`. -/
def handle_order_update (st : ExecState) (order : ActiveOrder) (now : ℚ) :
    ExecState × List ExecutionReport :=
  let st := { st with active_orders := ainsert order.order_id order st.active_orders }
  match alookup order.intent_id st.entry_intents with
  | none => (st, [])
  | some intent =>
    match order.status with
    | OrderStatus.FILLED =>
      let (st, report) := open_position_from_fill st intent order.avg_fill_price order.filled_qty now
      ({ st with entry_intents := aerase intent.intent_id st.entry_intents }, [report])
    | OrderStatus.CANCELLED =>
      let filled_qty := max order.filled_qty 0
      let remaining_qty := max (intent.size - filled_qty) 0
      let pfill : ExecState × List ExecutionReport :=
        if filled_qty > 0 then
          let avg_price := if order.avg_fill_price ≠ 0 then order.avg_fill_price else intent.entry_price
          let (st, report) := open_position_from_fill st intent avg_price filled_qty now
          (st, [report])
        else (st, [])
      let st := set_intent_status pfill.1 intent.intent_id EntryIntentStatus.CANCELLED
      let reports := pfill.2 ++
        [{ event := ExecutionEventType.ENTRY_CANCELLED, symbol := intent.symbol,
           side := intent.side, quantity := remaining_qty, price := intent.entry_price,
           timestamp := now, intent_id := some intent.intent_id,
           order_id := some order.order_id, reason := some "order_cancelled" }]
      ({ st with entry_intents := aerase intent.intent_id st.entry_intents }, reports)
    | OrderStatus.REJECTED =>
      let st := set_intent_status st intent.intent_id EntryIntentStatus.REJECTED
      ({ st with entry_intents := aerase intent.intent_id st.entry_intents },
       [{ event := ExecutionEventType.ENTRY_REJECTED, symbol := intent.symbol,
          side := intent.side, quantity := 0, price := intent.entry_price, timestamp := now,
          intent_id := some intent.intent_id, order_id := some order.order_id,
          reason := some "gateway_rejected" }])
    | _ =>
      let touch := fun (i : EntryIntent) =>
        { i with status := EntryIntentStatus.ACTIVE, filled_qty := order.filled_qty }
      ({ st with entry_intents := amodify intent.intent_id touch st.entry_intents }, [])

/-- `ExecutionEngine._submit_order`: records the gateway call, marks the
intent `REJECTED` in place if the gateway raises (the intent is NOT removed
from the live map), otherwise stores the `ActiveOrder` and, on an immediate
`FILLED` status, runs `handle_order_update` (whose reports the source
discards). -/
def submit_order (st : ExecState) (gw : Gateway) (intent : EntryIntent)
    (order : OrderIntent) (now : ℚ) : ExecState :=
  let st := { st with submitted := st.submitted ++ [order] }
  match gw order with
  | Except.error _ => set_intent_status st intent.intent_id EntryIntentStatus.REJECTED
  | Except.ok active_order =>
    let st := { st with active_orders := ainsert active_order.order_id active_order st.active_orders }
    if active_order.status = OrderStatus.FILLED then (handle_order_update st active_order now).1
    else st

/-- `ExecutionEngine._estimate_slippage`: `0.0` when no market snapshot is
available, else half-spread plus the depth impact component. -/
def estimate_slippage (intent : EntryIntent) (mkt : Option MarketState) : ℚ :=
  match mkt with
  | none => 0
  | some m =>
    let notional := intent.size * intent.entry_price
    let depth := max m.depth_pm1_usd 1
    let depth_component := notional / depth * 10000
    let spread_component := m.spread_bps * (1/2)
    spread_component + depth_component

/-- The FOK market order built by `_execute_market_intent`. -/
def market_order_of (intent : EntryIntent) : OrderIntent :=
  { symbol := intent.symbol, side := intent.side, order_type := OrderType.MARKET,
    quantity := intent.size, time_in_force := TimeInForce.FOK,
    client_order_id := some intent.intent_id, comment := some "market_with_cap" }

/-- `ExecutionEngine._execute_market_intent`: stamps the expected slippage on
the intent, rejects in place (without submitting and without removing the
intent from the live map) when a truthy cap is exceeded, else submits a
FOK market order. -/
def execute_market_intent (st : ExecState) (gw : Gateway) (intent : EntryIntent)
    (mkt : Option MarketState) (decision : RiskDecision) (now : ℚ) : ExecState :=
  let expected := estimate_slippage intent mkt
  let intent := { intent with expected_slippage_bps := some expected }
  let st := { st with entry_intents := amodify intent.intent_id (fun _ => intent) st.entry_intents }
  let cap := decision.metadata.max_slippage_bps <|> st.limits.max_slippage_bps
  let cap_trips : Bool :=
    match cap with
    | some lim => decide (lim ≠ 0) && decide (expected > lim)
    | none => false
  if cap_trips then set_intent_status st intent.intent_id EntryIntentStatus.REJECTED
  else submit_order st gw intent (market_order_of intent) now

/-- `ExecutionEngine._maybe_trigger_limit`: on a retest of the entry price,
mark the intent `ACTIVE` and submit a post-only GTC limit order. -/
def maybe_trigger_limit (st : ExecState) (gw : Gateway) (intent : EntryIntent)
    (m : MarketState) (now : ℚ) : ExecState :=
  if hit_retest intent.side m.mid_price intent.entry_price then
    let intent := { intent with status := EntryIntentStatus.ACTIVE }
    let st := { st with entry_intents := amodify intent.intent_id (fun _ => intent) st.entry_intents }
    let order : OrderIntent :=
      { symbol := intent.symbol, side := intent.side, order_type := OrderType.LIMIT,
        quantity := intent.size, price := some intent.entry_price,
        time_in_force := TimeInForce.GTC, post_only := true,
        client_order_id := some intent.intent_id, comment := some "limit_on_retest" }
    submit_order st gw intent order now
  else st

/-- `ExecutionEngine._track_limit_intent` (its immediate evaluation uses the
wall clock; modelled with the caller's `now`). -/
def track_limit_intent (st : ExecState) (gw : Gateway) (intent : EntryIntent)
    (mkt : Option MarketState) (now : ℚ) : ExecState :=
  let intent := { intent with status := EntryIntentStatus.PENDING }
  let st := { st with entry_intents := amodify intent.intent_id (fun _ => intent) st.entry_intents }
  match mkt with
  | some m => maybe_trigger_limit st gw intent m now
  | none => st

/-- `ExecutionEngine.handle_risk_decision`: no-op unless approved with a
size and a stop; otherwise builds the intent (with merged metadata and TTL),
stores it in the live map and dispatches on the entry mode, defaulting
unknown modes to market execution.  `fresh_id` stands for `uuid.uuid4()`. -/
def handle_risk_decision (st : ExecState) (gw : Gateway) (decision : RiskDecision)
    (mkt : Option MarketState) (now : ℚ) (fresh_id : String) : ExecState :=
  if decision.approved = false ∨ decision.size = none ∨ decision.sl_price = none then st
  else
    let meta := decision.metadata
    let meta := { meta with
      time_stop_bars := meta.time_stop_bars <|> decision.time_stop_bars
      trailing_mode := meta.trailing_mode <|> decision.trailing_mode
      trailing_params := meta.trailing_params <|> decision.trailing_params }
    let ttl := meta.entry_ttl_seconds.getD st.default_entry_ttl_sec
    let intent : EntryIntent :=
      { intent_id := fresh_id, symbol := decision.symbol, strategy_id := decision.strategy_id,
        side := decision.side, size := decision.size.getD 0,
        entry_price := decision.signal.entry_price, sl_price := decision.sl_price.getD 0,
        tp_levels := decision.tp_levels, entry_type := decision.entry_type,
        created_at := now, ttl_seconds := ttl, status := EntryIntentStatus.PENDING,
        meta := meta }
    let st := { st with entry_intents := ainsert intent.intent_id intent st.entry_intents }
    if intent.entry_type = "market_with_cap" then execute_market_intent st gw intent mkt decision now
    else if intent.entry_type = "limit_on_retest" then track_limit_intent st gw intent mkt now
    else execute_market_intent st gw intent mkt decision now

/-- Loop body of `ExecutionEngine._activate_limit_retests` for one captured
intent: skip non-`limit_on_retest` intents and symbols without a snapshot;
cancel and remove on TTL expiry; otherwise try the retest trigger. -/
def retest_step (gw : Gateway) (mkts : List (String × MarketState)) (now : ℚ)
    (acc : ExecState × List ExecutionReport) (intent : EntryIntent) :
    ExecState × List ExecutionReport :=
  let (st, reports) := acc
  if intent.entry_type ≠ "limit_on_retest" then (st, reports)
  else match alookup intent.symbol mkts with
  | none => (st, reports)
  | some m =>
    if intent.is_expired now then
      let st := set_intent_status st intent.intent_id EntryIntentStatus.CANCELLED
      let report : ExecutionReport :=
        { event := ExecutionEventType.ENTRY_CANCELLED, symbol := intent.symbol,
          side := intent.side, quantity := intent.size, price := intent.entry_price,
          timestamp := now, intent_id := some intent.intent_id,
          reason := some "limit_on_retest_ttl" }
      ({ st with entry_intents := aerase intent.intent_id st.entry_intents },
       reports ++ [report])
    else (maybe_trigger_limit st gw intent m now, reports)

/-- `ExecutionEngine._activate_limit_retests`: folds `retest_step` over the
captured list of live intents (`list(self.entry_intents.values())`). -/
def activate_limit_retests (st : ExecState) (gw : Gateway)
    (mkts : List (String × MarketState)) (now : ℚ) : ExecState × List ExecutionReport :=
  (st.entry_intents.map Prod.snd).foldl (retest_step gw mkts now) (st, [])

/-- Per-position body of the `on_market_snapshot` exit loop: skip symbols
without a snapshot, run the trailing callback if wired, evaluate exits and
write back (or pop) the position. -/
def snapshot_position_step (trailing : Option (PositionState → MarketState → PositionState))
    (mkts : List (String × MarketState)) (now : ℚ)
    (acc : ExecState × List ExecutionReport) (entry : String × PositionState) :
    ExecState × List ExecutionReport :=
  let (st, reports) := acc
  match alookup entry.1 mkts with
  | none => (st, reports)
  | some m =>
    let position := match trailing with
      | some callback => callback entry.2 m
      | none => entry.2
    let result := evaluate_position_targets position m now
    let st :=
      if result.2.1 then { st with positions := aerase entry.1 st.positions }
      else { st with positions := amodify entry.1 (fun _ => result.1) st.positions }
    (st, reports ++ result.2.2)

/-- `ExecutionEngine.on_market_snapshot`: limit-retest phase first, then the
per-position trailing/exit phase over the positions captured after phase
one. -/
def on_market_snapshot (st : ExecState) (gw : Gateway)
    (trailing : Option (PositionState → MarketState → PositionState))
    (mkts : List (String × MarketState)) (now : ℚ) : ExecState × List ExecutionReport :=
  let phase1 := activate_limit_retests st gw mkts now
  phase1.1.positions.foldl (snapshot_position_step trailing mkts now) phase1

/-! Startup reconciliation (`app/execution/sync_state.py`). -/

/-- Raw value of one field of a Bybit position snapshot entry: absent key,
a parsable number, or an unparsable non-empty string (`bad`). -/
inductive RawField where
  | absent
  | num (q : ℚ)
  | bad
deriving DecidableEq, Repr

/-- Python truthiness of a raw field (`None` and `0` falsy; a non-empty
garbage string truthy). -/
def RawField.truthy : RawField → Bool
  | RawField.absent => false
  | RawField.num q => decide (q ≠ 0)
  | RawField.bad => true

/-- `snapshot.get(key, default)`. -/
def RawField.orDefault (f : RawField) (d : RawField) : RawField :=
  match f with
  | RawField.absent => d
  | v => v

/-- Python `a or b` on raw fields. -/
def RawField.pyOr (a b : RawField) : RawField := if a.truthy then a else b

/-- `float(...)` applied to a raw field: raises (error) on `None` or on an
unparsable string. -/
def pyFloat : RawField → Except Unit ℚ
  | RawField.absent => Except.error ()
  | RawField.num q => Except.ok q
  | RawField.bad => Except.error ()

/-- `int(...)` applied to a raw field (truncation toward zero; raises on
`None` or on an unparsable string). -/
def pyInt : RawField → Except Unit ℤ
  | RawField.absent => Except.error ()
  | RawField.num q => Except.ok (q.num.tdiv (q.den : ℤ))
  | RawField.bad => Except.error ()

/-- `Side(str(...).lower())`: raises `ValueError` unless the lowercased
string is a valid enum value. -/
def parseSide (s : String) : Except Unit Side :=
  if py_lower s = "long" then Except.ok Side.LONG
  else if py_lower s = "short" then Except.ok Side.SHORT
  else Except.error ()

/-- The values of the `StrategyId` enum (`app.core.enums.StrategyId`). -/
def strategy_id_values : List String :=
  ["strategy_a_trend_continuation", "strategy_b_bb_squeeze", "strategy_c_range_break",
   "strategy_d_vwap_mean_reversion", "strategy_e_liquidity_sweep", "strategy_debug_always_long"]

/-- One raw exchange position snapshot entry, field by field as probed by
`snapshot_to_position` (string-valued keys are modelled post-`str()`:
an absent `side` key shows up as the string of `None`). -/
structure RawSnapshot where
  size : RawField := RawField.absent
  symbol : String := "None"
  side : String := "None"
  entry_price : RawField := RawField.absent
  avgPrice : RawField := RawField.absent
  stop_loss : RawField := RawField.absent
  stopLoss : RawField := RawField.absent
  created_time : RawField := RawField.absent
  createdTime : RawField := RawField.absent
  strategy_id : Option String := none
  tag : Option String := none
  trailing_mode : Option String := none
deriving DecidableEq, Repr

/-- `app.execution.sync_state.snapshot_to_position`: `ok none` for a
zero-size entry, `ok (some position)` for a parsed entry, `error` when any
probed field fails to parse (the source has no exception handling). -/
def snapshot_to_position (s : RawSnapshot) : Except Unit (Option PositionState) := do
  let size ← pyFloat (s.size.orDefault (RawField.num 0))
  if size = 0 then return none
  let side ← parseSide s.side
  let entry_price ← pyFloat (s.entry_price.orDefault (s.avgPrice.orDefault (RawField.num 0)))
  let stop_raw := s.stop_loss.pyOr s.stopLoss
  let sl_price ← if stop_raw.truthy then pyFloat stop_raw else pure entry_price
  let ts ← pyInt ((s.created_time.orDefault (s.createdTime.orDefault (RawField.num 0))).pyOr
    (RawField.num 0))
  let open_time : ℚ := if (ts : ℚ) > 10000 then (ts : ℚ) / 1000 else (ts : ℚ)
  let strategy_raw := pyOrS s.strategy_id s.tag
  let strategy_id :=
    match strategy_raw with
    | some raw =>
      if raw ≠ "" then
        (if raw ∈ strategy_id_values then raw else "strategy_a_trend_continuation")
      else "strategy_a_trend_continuation"
    | none => "strategy_a_trend_continuation"
  return some
    { symbol := s.symbol, strategy_id := strategy_id, side := side, size := size,
      entry_price := entry_price, open_time := open_time, initial_sl_price := sl_price,
      current_sl_price := sl_price, trailing_mode := some (s.trailing_mode.getD "none"),
      trailing_params := {}, tp_levels := [] }

/-- Accumulator loop of `sync_state_from_exchange`: one error anywhere
aborts the whole batch (the source loop has no try/except around the
conversion). -/
def sync_go (acc : List (String × PositionState)) :
    List RawSnapshot → Except Unit (List (String × PositionState))
  | [] => Except.ok acc
  | s :: rest =>
    match snapshot_to_position s with
    | Except.error e => Except.error e
    | Except.ok none => sync_go acc rest
    | Except.ok (some position) => sync_go (ainsert position.symbol position acc) rest

/-- `app.execution.sync_state.sync_state_from_exchange`. -/
def sync_state_from_exchange (snapshots : List RawSnapshot) :
    Except Unit (List (String × PositionState)) :=
  sync_go [] snapshots

/-! Specification vocabulary and concrete fixtures used by the theorems. -/

/-- The favorable direction of a stop move: for a long position the stop may
only rise, for a short it may only fall. -/
def favorable_move (side : Side) (old_sl new_sl : ℚ) : Prop :=
  match side with
  | Side.LONG => old_sl ≤ new_sl
  | Side.SHORT => new_sl ≤ old_sl

/-- Baseline limits of the test suite: equity 10,000, per-trade 1%, daily
loss 10%, five slots, 30-minute cooldown, 5x leverage. -/
def limits0 : RiskLimits :=
  { virtual_equity_usdt := 10000, per_trade_risk_pct := 1/100, max_daily_loss_pct := 1/10,
    max_concurrent_positions := 5, cooldown_after_loss_min := 30, max_leverage := 5 }

/-- Fresh risk-engine state on session date 0. -/
def st0 : RiskEngineState := { limits := limits0, daily_state := { session_date := 0 } }

/-- A long BTC signal at entry 100 with stop 95. -/
def sig0 : Signal :=
  { symbol := "BTCUSDT", side := Side.LONG, entry_type := "breakout",
    strategy_id := "strategy_a_trend_continuation", entry_price := 100, sl_price := some 95 }

/-- Same symbol as `sig0`, different strategy (for conflict resolution). -/
def sig1 : Signal := { sig0 with strategy_id := "strategy_b_bb_squeeze" }

/-- Engine state with the daily accumulator at the −1,000 breach threshold. -/
def stBr : RiskEngineState :=
  { st0 with daily_state := { session_date := 0, realized_pnl := -1000 } }

/-- Engine state with an active cooldown expiring at minute 1450 (= 00:10 of
day 1). -/
def st1 : RiskEngineState := { st0 with cooldown_until := some 1450 }

/-- Engine state with an active cooldown expiring at minute 200 of day 0. -/
def stCd : RiskEngineState := { st0 with cooldown_until := some 200 }

/-- Limits with a 5 bps slippage cap. -/
def limitsSlip : RiskLimits := { limits0 with max_slippage_bps := some 5 }

/-- A gateway whose `submit_order` always raises. -/
def gwErr : Gateway := fun _ => Except.error ()

/-- Execution engine state with the slippage-capped limits and empty maps. -/
def stX : ExecState := { limits := limitsSlip }

/-- An approved market-entry decision for 2 contracts of `sig0`. -/
def decM : RiskDecision :=
  { signal := sig0, strategy_id := "strategy_a_trend_continuation", symbol := "BTCUSDT",
    side := Side.LONG, entry_type := "market_with_cap", size := some 2, notional := some 200,
    sl_price := some 95, tp_levels := [], trailing_mode := none, trailing_params := none,
    time_stop_bars := none, approved := true, risk_amount := 200 }

/-- A thin snapshot: 10 bps spread and 10,000 of ±1% depth, so `decM`'s
order carries an expected slippage of 205 bps. -/
def mktM : MarketState :=
  { symbol := "BTCUSDT", mid_price := 100, spread_bps := 10, depth_pm1_usd := 10000 }

/-- A long position of size 1, entry 100, initial and current stop 95. -/
def posL : PositionState :=
  { symbol := "BTCUSDT", strategy_id := "strategy_a_trend_continuation", side := Side.LONG,
    size := 1, entry_price := 100, open_time := 0, initial_sl_price := 95,
    current_sl_price := 95 }

/-- Snapshot at mid price 105 (exactly TP1 of `posL`). -/
def mkt105 : MarketState := { symbol := "BTCUSDT", mid_price := 105 }

/-- Snapshot at mid price 110 (exactly TP2 of `posL`). -/
def mkt110 : MarketState := { symbol := "BTCUSDT", mid_price := 110 }

/-- A pending limit-on-retest intent created at 0 with a 60-second TTL. -/
def intent8 : EntryIntent :=
  { intent_id := "i8", symbol := "BTCUSDT", strategy_id := "strategy_a_trend_continuation",
    side := Side.LONG, size := 1, entry_price := 100, sl_price := 95,
    entry_type := "limit_on_retest", created_at := 0, ttl_seconds := 60 }

/-- Execution state holding only `intent8`. -/
def st8 : ExecState := { limits := limits0, entry_intents := [("i8", intent8)] }

/-- A gateway-reported full fill of `intent8`'s order. -/
def orderFill : ActiveOrder :=
  { order_id := "o1", intent_id := "i8", order := market_order_of intent8,
    status := OrderStatus.FILLED, filled_qty := 1, avg_fill_price := 100 }

/-- A live market-entry intent of size 2 stored under key `"im"`. -/
def intentM : EntryIntent :=
  { intent_id := "im", symbol := "BTCUSDT", strategy_id := "strategy_a_trend_continuation",
    side := Side.LONG, size := 2, entry_price := 100, sl_price := 95,
    entry_type := "market_with_cap", created_at := 0, ttl_seconds := 300 }

/-- Execution state holding only `intentM`, with the slippage-capped limits. -/
def stXi : ExecState := { limits := limitsSlip, entry_intents := [("im", intentM)] }

/-- A parsable short ETH snapshot entry of size 2. -/
def goodSnap : RawSnapshot :=
  { size := RawField.num 2, symbol := "ETHUSDT", side := "short",
    entry_price := RawField.num 105, stop_loss := RawField.num 110,
    created_time := RawField.num 0 }

/-- A snapshot entry whose `size` field cannot be parsed as a number. -/
def badSnap : RawSnapshot :=
  { size := RawField.bad, symbol := "BTCUSDT", side := "long",
    entry_price := RawField.num 100 }

/-- A zero-size snapshot entry (discarded without error). -/
def zeroSnap : RawSnapshot := { size := RawField.num 0, symbol := "XRPUSDT", side := "long" }

/-! Association-list and arithmetic helper lemmas. -/

theorem alookup_aerase {α : Type} (k k' : String) (m : List (String × α)) :
    alookup k (aerase k' m) = if k' = k then none else alookup k m := by
  induction m with
  | nil => simp [aerase, alookup]
  | cons a m ih =>
    by_cases hk : a.1 = k'
    · have h1 : aerase k' (a :: m) = aerase k' m := by
        simp [aerase, List.filter_cons, hk]
      rw [h1, ih]
      by_cases hkk : k' = k
      · simp [hkk]
      · have hak : a.1 ≠ k := by rw [hk]; exact hkk
        simp [hkk, alookup, hak]
    · have h1 : aerase k' (a :: m) = a :: aerase k' m := by
        simp [aerase, List.filter_cons, hk]
      rw [h1]
      by_cases hak : a.1 = k
      · have hkk : k' ≠ k := fun h => hk (hak.trans h.symm)
        simp [alookup, hak, hkk]
      · simp [alookup, hak, ih]

theorem alookup_amodify {α : Type} (k k' : String) (f : α → α) (m : List (String × α)) :
    alookup k (amodify k' f m) = if k' = k then (alookup k m).map f else alookup k m := by
  induction m with
  | nil => simp [amodify, alookup]
  | cons a m ih =>
    have hmod : amodify k' f (a :: m) =
        (if a.1 = k' then (k', f a.2) else a) :: amodify k' f m := by
      simp [amodify]
    rw [hmod]
    by_cases hk : a.1 = k'
    · rw [if_pos hk]
      by_cases hkk : k' = k
      · have hak : a.1 = k := hk.trans hkk
        simp [alookup, hkk, hak]
      · have hak : a.1 ≠ k := by rw [hk]; exact hkk
        simp [alookup, hkk, hak, ih]
    · rw [if_neg hk]
      by_cases hak : a.1 = k
      · have hkk : k' ≠ k := fun h => hk (hak.trans h.symm)
        simp [alookup, hak, hkk]
      · simp [alookup, hak, ih]

theorem pyabs_nonneg (x : ℚ) : 0 ≤ pyabs x := by
  unfold pyabs; split <;> linarith

theorem pyabs_pos {x : ℚ} (h : x ≠ 0) : 0 < pyabs x := by
  unfold pyabs; split
  · linarith
  · rename_i hge
    exact lt_of_le_of_ne (not_lt.mp hge) (Ne.symm h)

/-! Stop-loss monotonicity (C1). -/

theorem favorable_move_refl (side : Side) (x : ℚ) : favorable_move side x x := by
  cases side <;> simp [favorable_move]

theorem update_sl_favorable (p : PositionState) (x : ℚ) :
    favorable_move p.side p.current_sl_price (p.update_sl x).current_sl_price := by
  unfold PositionState.update_sl favorable_move
  cases p.side
  all_goals simp only
  all_goals split
  all_goals simp
  all_goals linarith

/-- C1: For every `PositionState`, every stop update — `update_sl` called
directly with any candidate price, or through `apply_trailing_stop` with any
market snapshot in any trailing mode — moves `current_sl_price` only in the
position's favorable direction: it never decreases for a LONG position and
never increases for a SHORT position. -/
theorem C1_stop_monotonicity (p : PositionState) (new_price : ℚ) (mkt : MarketState) :
    favorable_move p.side p.current_sl_price (p.update_sl new_price).current_sl_price ∧
    favorable_move p.side p.current_sl_price (apply_trailing_stop p mkt).current_sl_price := by
  refine ⟨update_sl_favorable p new_price, ?_⟩
  unfold apply_trailing_stop
  simp only
  split_ifs
  any_goals exact favorable_move_refl _ _
  any_goals exact update_sl_favorable _ _
  rename_i h1 h2 h3
  cases p.trailing_params.dynamic_sl_price
  · exact favorable_move_refl _ _
  · exact update_sl_favorable _ _

/-! Daily-loss breaker (C2). -/

theorem reject_fields (d : RiskDecision) (r : String) :
    (d.reject r).approved = false ∧ (d.reject r).reason = some r := by
  simp [RiskDecision.reject]

theorem build_decision_breach (st : RiskEngineState) (sig : Signal) (mkt : Option MarketState)
    (now : ℚ) (h : st.daily_state.breach_limit st.limits = true) :
    (st.build_decision sig mkt now).approved = false ∧
    (st.build_decision sig mkt now).reason = some "daily_loss_limit" := by
  unfold RiskEngineState.build_decision
  simp [h, RiskDecision.reject]

theorem assess_loop_all_rejected (st : RiskEngineState) (ops : List (String × PositionState))
    (mkts : List (String × MarketState)) (now : ℚ) (r : String)
    (h : ∀ sig : Signal, (st.build_decision sig (alookup sig.symbol mkts) now).approved = false ∧
         (st.build_decision sig (alookup sig.symbol mkts) now).reason = some r) :
    ∀ (l : List Signal) (slots : ℤ), ∀ d ∈ st.assess_loop ops mkts now l slots,
      d.approved = false ∧ d.reason = some r := by
  intro l
  induction l with
  | nil => intro slots d hd; simp [RiskEngineState.assess_loop] at hd
  | cons sig rest ih =>
    intro slots d hd
    rw [RiskEngineState.assess_loop] at hd
    simp only [(h sig).1, Bool.false_eq_true, and_false, if_false] at hd
    rcases List.mem_cons.mp hd with hEq | hMem
    · subst hEq; exact h sig
    · exact ih slots d hMem

theorem roll_session_same (st : RiskEngineState) (now : ℚ)
    (h : date_of now = st.daily_state.session_date) : st.roll_session now = st := by
  unfold RiskEngineState.roll_session
  simp [h]

theorem roll_session_new (st : RiskEngineState) (now : ℚ)
    (h : date_of now ≠ st.daily_state.session_date) :
    st.roll_session now =
      { st with daily_state := { session_date := date_of now, realized_pnl := 0 },
                cooldown_until := none } := by
  unfold RiskEngineState.roll_session
  simp [h, DailyRiskState.reset]

theorem assess_signals_fst (st : RiskEngineState) (signals : List Signal)
    (ops : List (String × PositionState)) (mkts : List (String × MarketState)) (now : ℚ) :
    (st.assess_signals signals ops mkts now).1 = st.roll_session now := rfl

/-- C2: Once the daily accumulator satisfies
`realized_pnl ≤ -virtual_equity * max_daily_loss_pct`, every decision
returned by `assess_signals` (on the same session date) is rejected with
reason `daily_loss_limit`; assessments themselves leave the accumulator
untouched, so the breaker persists across subsequent assessments, until a
call whose local calendar date differs from the stored session date resets
`DailyRiskState` (and only then). -/
theorem C2_daily_breaker (st : RiskEngineState) (signals : List Signal)
    (ops : List (String × PositionState)) (mkts : List (String × MarketState)) (now : ℚ) :
    (st.daily_state.realized_pnl ≤ -st.limits.virtual_equity_usdt * st.limits.max_daily_loss_pct →
      date_of now = st.daily_state.session_date →
      ∀ d ∈ (st.assess_signals signals ops mkts now).2,
        d.approved = false ∧ d.reason = some "daily_loss_limit") ∧
    (date_of now = st.daily_state.session_date →
      (st.assess_signals signals ops mkts now).1 = st) ∧
    (date_of now ≠ st.daily_state.session_date →
      (st.assess_signals signals ops mkts now).1 =
        { st with daily_state := { session_date := date_of now, realized_pnl := 0 },
                  cooldown_until := none }) := by
  refine ⟨?_, ?_, ?_⟩
  · intro hbr hdate d hd
    have hroll : st.roll_session now = st := roll_session_same st now hdate
    have hbreach : st.daily_state.breach_limit st.limits = true := by
      simp [DailyRiskState.breach_limit, RiskLimits.daily_loss_limit]
      linarith
    unfold RiskEngineState.assess_signals at hd
    rw [hroll] at hd
    exact assess_loop_all_rejected st ops mkts now "daily_loss_limit"
      (fun sig => build_decision_breach st sig (alookup sig.symbol mkts) now hbreach)
      _ _ d hd
  · intro hdate
    rw [assess_signals_fst, roll_session_same st now hdate]
  · intro hdate
    rw [assess_signals_fst, roll_session_new st now hdate]

/-! Decision-per-signal accounting (C6). -/

theorem build_decision_signal (st : RiskEngineState) (sig : Signal) (mkt : Option MarketState)
    (now : ℚ) : (st.build_decision sig mkt now).signal = sig := by
  unfold RiskEngineState.build_decision
  repeat' split
  all_goals simp [apply_ite RiskDecision.signal, RiskDecision.reject, ite_self]

theorem assess_loop_map_signal (st : RiskEngineState) (ops : List (String × PositionState))
    (mkts : List (String × MarketState)) (now : ℚ) :
    ∀ (l : List Signal) (slots : ℤ),
      (st.assess_loop ops mkts now l slots).map RiskDecision.signal = l := by
  intro l
  induction l with
  | nil => intro slots; simp [RiskEngineState.assess_loop]
  | cons sig rest ih =>
    intro slots
    rw [RiskEngineState.assess_loop]
    split
    · split
      · simp [RiskDecision.reject, build_decision_signal, ih]
      · simp [build_decision_signal, ih]
    · simp [build_decision_signal, ih]

/-- Witness for C2: with the daily accumulator at −1,000 against limits
10,000 × 10% (state `stBr`), the single decision produced for `sig0` at
minute 10 of the stored session date is rejected with reason
`daily_loss_limit`, and the assessment leaves the engine state unchanged. -/
theorem C2_daily_breaker_witness :
    ((stBr.assess_signals [sig0] [] [] 10).2).map
        (fun d => (d.approved, d.reason)) = [(false, some "daily_loss_limit")] ∧
    (stBr.assess_signals [sig0] [] [] 10).1 = stBr := by
  have hbr : stBr.daily_state.realized_pnl ≤
      -stBr.limits.virtual_equity_usdt * stBr.limits.max_daily_loss_pct := by
    norm_num [stBr, st0, limits0]
  have hdate : date_of (10 : ℚ) = stBr.daily_state.session_date := by
    norm_num [date_of, stBr, st0]
  have h := C2_daily_breaker stBr [sig0] [] [] 10
  have hall := h.1 hbr hdate
  have hfst := h.2.1 hdate
  refine ⟨?_, hfst⟩
  have hroll : stBr.roll_session 10 = stBr := roll_session_same stBr 10 hdate
  have hmap : ((stBr.assess_signals [sig0] [] [] 10).2).map RiskDecision.signal
      = [sig0] := by
    simp only [RiskEngineState.assess_signals]
    rw [hroll, assess_loop_map_signal]
    simp [RiskEngineState.resolve_conflicts, sort_by_priority, insert_by_priority,
      dedupe_by_symbol]
  cases hL : (stBr.assess_signals [sig0] [] [] 10).2 with
  | nil => rw [hL] at hmap; simp at hmap
  | cons d rest =>
    rw [hL] at hmap hall
    cases rest with
    | nil =>
      have hd := hall d (by simp)
      simp [hd.1, hd.2]
    | cons d2 rest2 => simp at hmap

theorem roll_session_priorities (st : RiskEngineState) (now : ℚ) :
    (st.roll_session now).priorities = st.priorities := by
  unfold RiskEngineState.roll_session
  split <;> rfl

theorem roll_session_priority_value (st : RiskEngineState) (now : ℚ) :
    (st.roll_session now).priority_value = st.priority_value := by
  funext s
  unfold RiskEngineState.priority_value
  rw [roll_session_priorities]

/-- C6 (amended): `assess_signals` returns exactly one `RiskDecision` per
signal that survives same-symbol conflict resolution — rejected decisions
included, none dropped after that stage — but signals eliminated by
`_resolve_conflicts` produce no decision at all (they are only counted in
the log summary). -/
theorem C6_decisions_per_surviving_signal (st : RiskEngineState) (signals : List Signal)
    (ops : List (String × PositionState)) (mkts : List (String × MarketState)) (now : ℚ) :
    ((st.assess_signals signals ops mkts now).2).map RiskDecision.signal
      = st.resolve_conflicts signals := by
  unfold RiskEngineState.assess_signals
  simp only
  rw [assess_loop_map_signal]
  unfold RiskEngineState.resolve_conflicts
  rw [roll_session_priority_value]

/-! Sizing arithmetic (C3). -/

/-- C3: For a signal with no target-notional, no risk-% or equity override,
a stop present with `entry ≠ stop`, breaker and cooldown inactive, and
neither the notional cap nor the slippage filter binding, the decision is
approved with `risk_amount = per_trade_risk_pct * virtual_equity`,
`notional = risk_amount / |entry − stop| * entry` and
`size = risk_amount / |entry − stop|`. -/
theorem C3_sizing (st : RiskEngineState) (sig : Signal) (mkt : Option MarketState) (now sl : ℚ)
    (h_breach : st.daily_state.breach_limit st.limits = false)
    (h_cd : st.cooldown_active now = false)
    (h_sl : sig.sl_price = some sl)
    (h_tn : sig.target_notional = none)
    (h_rp : sig.target_risk_pct = none)
    (h_ve : sig.metadata.virtual_equity = none)
    (h_entry : 0 < sig.entry_price)
    (h_ra : 0 < st.limits.per_trade_risk_pct * st.limits.virtual_equity_usdt)
    (h_ne : sig.entry_price ≠ sl)
    (h_cap : st.limits.per_trade_risk_pct * st.limits.virtual_equity_usdt /
        pyabs (sig.entry_price - sl) * sig.entry_price ≤ st.limits.max_notional sig.symbol)
    (h_slip : ∀ cap m, (sig.metadata.max_slippage_bps <|> st.limits.max_slippage_bps) = some cap →
        mkt = some m → ¬(cap ≠ 0 ∧ max m.avg_slippage_bps (m.spread_bps * (1/2)) > cap)) :
    (st.build_decision sig mkt now).approved = true ∧
    (st.build_decision sig mkt now).risk_amount
        = st.limits.per_trade_risk_pct * st.limits.virtual_equity_usdt ∧
    (st.build_decision sig mkt now).notional
        = some (st.limits.per_trade_risk_pct * st.limits.virtual_equity_usdt /
            pyabs (sig.entry_price - sl) * sig.entry_price) ∧
    (st.build_decision sig mkt now).size
        = some (st.limits.per_trade_risk_pct * st.limits.virtual_equity_usdt /
            pyabs (sig.entry_price - sl)) := by
  have hra_eq : st.limits.risk_amount sig.target_risk_pct sig.metadata.virtual_equity
      = st.limits.per_trade_risk_pct * st.limits.virtual_equity_usdt := by
    rw [h_rp, h_ve]; rfl
  have hdist : 0 < pyabs (sig.entry_price - sl) := pyabs_pos (sub_ne_zero.mpr h_ne)
  have hn0 : 0 < st.limits.per_trade_risk_pct * st.limits.virtual_equity_usdt /
      pyabs (sig.entry_price - sl) * sig.entry_price :=
    mul_pos (div_pos h_ra hdist) h_entry
  have hmain : st.build_decision sig mkt now =
      { signal := sig, strategy_id := sig.strategy_id, symbol := sig.symbol, side := sig.side,
        entry_type := sig.entry_mode_str,
        size := some (st.limits.per_trade_risk_pct * st.limits.virtual_equity_usdt /
          pyabs (sig.entry_price - sl) * sig.entry_price / sig.entry_price),
        notional := some (st.limits.per_trade_risk_pct * st.limits.virtual_equity_usdt /
          pyabs (sig.entry_price - sl) * sig.entry_price),
        sl_price := sig.sl_price, tp_levels := sig.tp_levels,
        trailing_mode := sig.trailing_mode, trailing_params := sig.trailing_params,
        time_stop_bars := sig.time_stop_bars, approved := true,
        risk_amount := st.limits.per_trade_risk_pct * st.limits.virtual_equity_usdt,
        reason := none, metadata := sig.metadata } := by
    unfold RiskEngineState.build_decision
    simp only [h_breach, h_cd, h_sl, h_tn, hra_eq, Bool.false_eq_true, if_false]
    rw [if_neg (not_le.mpr h_ra), if_neg (not_le.mpr hdist), if_neg (not_lt.mpr h_cap),
      if_neg (not_le.mpr hn0)]
    rcases hcv : sig.metadata.max_slippage_bps <|> st.limits.max_slippage_bps with _ | cap
    · cases mkt <;> rfl
    · rcases mkt with _ | m
      · rfl
      · simp only [if_neg (h_slip cap m hcv rfl)]
  rw [hmain]
  refine ⟨rfl, rfl, rfl, ?_⟩
  simp only
  rw [mul_div_cancel_right₀ _ (ne_of_gt h_entry)]

/-- C3 witness: equity 10,000, per-trade risk 1%, entry 100, stop 95 give an
approved decision with risk_amount 100, notional 2,000 and size 20. -/
theorem C3_sizing_witness :
    (st0.build_decision sig0 none 100).approved = true ∧
    (st0.build_decision sig0 none 100).risk_amount = 100 ∧
    (st0.build_decision sig0 none 100).notional = some 2000 ∧
    (st0.build_decision sig0 none 100).size = some 20 := by
  have h := C3_sizing st0 sig0 none 100 95
    (by norm_num [DailyRiskState.breach_limit, RiskLimits.daily_loss_limit, st0, limits0])
    (by norm_num [RiskEngineState.cooldown_active, st0])
    rfl rfl rfl rfl
    (by norm_num [sig0])
    (by norm_num [st0, limits0])
    (by norm_num [sig0])
    (by norm_num [st0, limits0, sig0, RiskLimits.max_notional, alookup, pyabs])
    (by intro cap m hc _; exact Option.noConfusion hc)
  refine ⟨h.1, ?_, ?_, ?_⟩
  · rw [h.2.1]; norm_num [st0, limits0]
  · rw [h.2.2.1]; norm_num [st0, limits0, sig0, pyabs]
  · rw [h.2.2.2]; norm_num [st0, limits0, sig0, pyabs]

/-! Cooldown behaviour (C5). -/

theorem roll_session_limits (st : RiskEngineState) (now : ℚ) :
    (st.roll_session now).limits = st.limits := by
  unfold RiskEngineState.roll_session
  split <;> rfl

theorem build_decision_cooldown (st : RiskEngineState) (sig : Signal) (mkt : Option MarketState)
    (now : ℚ) (hb : st.daily_state.breach_limit st.limits = false)
    (hc : st.cooldown_active now = true) :
    (st.build_decision sig mkt now).approved = false ∧
    (st.build_decision sig mkt now).reason = some "cooldown_active" := by
  unfold RiskEngineState.build_decision
  simp [hb, hc, RiskDecision.reject]

set_option maxHeartbeats 1000000 in
theorem build_decision_reason_ne_cooldown (st : RiskEngineState) (sig : Signal)
    (mkt : Option MarketState) (now : ℚ) (hc : st.cooldown_active now = false) :
    (st.build_decision sig mkt now).reason ≠ some "cooldown_active" := by
  unfold RiskEngineState.build_decision
  simp only [hc, Bool.false_eq_true, if_false]
  repeat' split
  all_goals simp [apply_ite RiskDecision.reason, RiskDecision.reject, ite_self]

theorem assess_loop_mem (st : RiskEngineState) (ops : List (String × PositionState))
    (mkts : List (String × MarketState)) (now : ℚ) :
    ∀ (l : List Signal) (slots : ℤ) d, d ∈ st.assess_loop ops mkts now l slots →
      ∃ sig, sig ∈ l ∧
        (d = st.build_decision sig (alookup sig.symbol mkts) now ∨
         d = (st.build_decision sig (alookup sig.symbol mkts) now).reject
           "max_concurrent_positions_reached") := by
  intro l
  induction l with
  | nil => intro slots d hd; simp [RiskEngineState.assess_loop] at hd
  | cons sig rest ih =>
    intro slots d hd
    rw [RiskEngineState.assess_loop] at hd
    by_cases h1 : (alookup sig.symbol ops).isNone ∧
        (st.build_decision sig (alookup sig.symbol mkts) now).approved = true
    · rw [if_pos h1] at hd
      by_cases h2 : slots ≤ 0
      · rw [if_pos h2] at hd
        rcases List.mem_cons.mp hd with rfl | hm
        · exact ⟨sig, List.mem_cons_self sig rest, Or.inr rfl⟩
        · obtain ⟨s, hs, hor⟩ := ih slots d hm
          exact ⟨s, List.mem_cons_of_mem sig hs, hor⟩
      · rw [if_neg h2] at hd
        rcases List.mem_cons.mp hd with rfl | hm
        · exact ⟨sig, List.mem_cons_self sig rest, Or.inl rfl⟩
        · obtain ⟨s, hs, hor⟩ := ih (slots - 1) d hm
          exact ⟨s, List.mem_cons_of_mem sig hs, hor⟩
    · rw [if_neg h1] at hd
      rcases List.mem_cons.mp hd with rfl | hm
      · exact ⟨sig, List.mem_cons_self sig rest, Or.inl rfl⟩
      · obtain ⟨s, hs, hor⟩ := ih slots d hm
        exact ⟨s, List.mem_cons_of_mem sig hs, hor⟩

/-- C5 counterexample: with an active cooldown until minute 1450 (00:10 of
day 1), `record_trade_pnl` with `realized_pnl = 0 ≥ 0` at minute 1445 —
while the cooldown is still running — clears the cooldown (the session
rollover inside the call resets it), contradicting the claim that a
non-negative call never sets, extends, or clears an active cooldown. -/
theorem C5_cooldown_cex :
    st1.cooldown_until = some 1450 ∧ (1445 : ℚ) < 1450 ∧ ¬((0 : ℚ) < 0) ∧
    (st1.record_trade_pnl 0 1445).cooldown_until = none := by
  refine ⟨rfl, by norm_num, by norm_num, ?_⟩
  norm_num [RiskEngineState.record_trade_pnl, RiskEngineState.roll_session, date_of,
    DailyRiskState.reset, st1, st0, limits0]

/-- C5 (amended): `record_trade_pnl` with `realized_pnl < 0` always arms
`cooldown_until = when + cooldown_after_loss_min`; while the cooldown runs
(and the daily breaker is not tripped and no session rollover intervenes)
every decision is rejected with `cooldown_active`; at or after
`cooldown_until` that rejection no longer applies; a call with
`realized_pnl ≥ 0` on the same session date leaves the cooldown untouched —
but any call whose `when` falls on a new local date clears an active
cooldown as part of the session rollover. -/
theorem C5_cooldown :
    (∀ (st : RiskEngineState) (pnl when : ℚ), pnl < 0 →
      (st.record_trade_pnl pnl when).cooldown_until
        = some (when + st.limits.cooldown_after_loss_min)) ∧
    (∀ (st : RiskEngineState) (pnl when : ℚ), 0 ≤ pnl →
      date_of when = st.daily_state.session_date →
      (st.record_trade_pnl pnl when).cooldown_until = st.cooldown_until) ∧
    (∀ (st : RiskEngineState) (pnl when : ℚ), 0 ≤ pnl →
      date_of when ≠ st.daily_state.session_date →
      (st.record_trade_pnl pnl when).cooldown_until = none) ∧
    (∀ (st : RiskEngineState) (signals : List Signal) (ops : List (String × PositionState))
       (mkts : List (String × MarketState)) (now c : ℚ),
      st.daily_state.breach_limit st.limits = false →
      st.cooldown_until = some c → now < c →
      date_of now = st.daily_state.session_date →
      ∀ d ∈ (st.assess_signals signals ops mkts now).2,
        d.approved = false ∧ d.reason = some "cooldown_active") ∧
    (∀ (st : RiskEngineState) (signals : List Signal) (ops : List (String × PositionState))
       (mkts : List (String × MarketState)) (now c : ℚ),
      st.cooldown_until = some c → c ≤ now →
      ∀ d ∈ (st.assess_signals signals ops mkts now).2,
        d.reason ≠ some "cooldown_active") := by
  refine ⟨?_, ?_, ?_, ?_, ?_⟩
  · intro st pnl when hneg
    unfold RiskEngineState.record_trade_pnl
    rw [if_pos hneg]
    simp [roll_session_limits]
  · intro st pnl when hpos hdate
    unfold RiskEngineState.record_trade_pnl
    rw [if_neg (not_lt.mpr hpos), roll_session_same st when hdate]
  · intro st pnl when hpos hdate
    unfold RiskEngineState.record_trade_pnl
    rw [if_neg (not_lt.mpr hpos), roll_session_new st when hdate]
  · intro st signals ops mkts now c hb hcd hlt hdate d hd
    have hroll : st.roll_session now = st := roll_session_same st now hdate
    have hact : st.cooldown_active now = true := by
      unfold RiskEngineState.cooldown_active
      rw [hcd]
      simpa using hlt
    unfold RiskEngineState.assess_signals at hd
    rw [hroll] at hd
    exact assess_loop_all_rejected st ops mkts now "cooldown_active"
      (fun sig => build_decision_cooldown st sig (alookup sig.symbol mkts) now hb hact)
      _ _ d hd
  · intro st signals ops mkts now c hcd hle d hd
    unfold RiskEngineState.assess_signals at hd
    have hact : (st.roll_session now).cooldown_active now = false := by
      unfold RiskEngineState.roll_session
      split
      · simp [RiskEngineState.cooldown_active]
      · unfold RiskEngineState.cooldown_active
        rw [hcd]
        simpa using not_lt.mpr hle
    obtain ⟨sig, _, hor⟩ := assess_loop_mem (st.roll_session now) ops mkts now _ _ d hd
    rcases hor with rfl | rfl
    · exact build_decision_reason_ne_cooldown _ sig _ now hact
    · simp [RiskDecision.reject]

/-- C5 witness: a −500 trade at minute 100 arms the cooldown until 130; a
winning trade on the same day leaves an armed cooldown alone; the rollover
call of the counterexample clears it; during an active cooldown the single
decision is rejected `cooldown_active`; after expiry it is not. -/
theorem C5_cooldown_witness :
    (st0.record_trade_pnl (-500) 100).cooldown_until = some 130 ∧
    (stCd.record_trade_pnl 5 100).cooldown_until = some 200 ∧
    (st1.record_trade_pnl 0 1445).cooldown_until = none ∧
    ((stCd.assess_signals [sig0] [] [] 100).2).map RiskDecision.reason
      = [some "cooldown_active"] ∧
    ((stCd.assess_signals [sig0] [] [] 250).2).map RiskDecision.reason = [none] := by
  have h := C5_cooldown
  have p1 := h.1 st0 (-500) 100 (by norm_num)
  have p2 := h.2.1 stCd 5 100 (by norm_num) (by norm_num [date_of, stCd, st0])
  have p3 := h.2.2.1 st1 0 1445 (by norm_num) (by norm_num [date_of, st1, st0])
  have _p4 := h.2.2.2.1 stCd [sig0] [] [] 100 200 (by
      norm_num [DailyRiskState.breach_limit, RiskLimits.daily_loss_limit, stCd, st0, limits0])
    rfl (by norm_num) (by norm_num [date_of, stCd, st0])
  have _p5 := h.2.2.2.2 stCd [sig0] [] [] 250 200 rfl (by norm_num)
  refine ⟨?_, ?_, ?_, ?_, ?_⟩
  · rw [p1]; norm_num [st0, limits0]
  · rw [p2]; rfl
  · exact p3
  · norm_num [RiskEngineState.assess_signals, RiskEngineState.assess_loop,
      RiskEngineState.roll_session, RiskEngineState.resolve_conflicts,
      RiskEngineState.priority_value, sort_by_priority, insert_by_priority, dedupe_by_symbol,
      RiskEngineState.build_decision, RiskEngineState.cooldown_active,
      DailyRiskState.breach_limit, RiskLimits.daily_loss_limit, RiskLimits.risk_amount,
      RiskLimits.max_notional, alookup, pyabs, Signal.entry_mode_str, pyOrS, date_of,
      RiskDecision.reject, DailyRiskState.reset, stCd, st0, sig0, limits0]
  · norm_num [RiskEngineState.assess_signals, RiskEngineState.assess_loop,
      RiskEngineState.roll_session, RiskEngineState.resolve_conflicts,
      RiskEngineState.priority_value, sort_by_priority, insert_by_priority, dedupe_by_symbol,
      RiskEngineState.build_decision, RiskEngineState.cooldown_active,
      DailyRiskState.breach_limit, RiskLimits.daily_loss_limit, RiskLimits.risk_amount,
      RiskLimits.max_notional, alookup, pyabs, Signal.entry_mode_str, pyOrS, date_of,
      RiskDecision.reject, DailyRiskState.reset, stCd, st0, sig0, limits0]

/-! Reconciliation error handling (C9). -/

theorem sync_go_error (s : RawSnapshot) (herr : snapshot_to_position s = Except.error ()) :
    ∀ (snaps : List RawSnapshot) (acc : List (String × PositionState)), s ∈ snaps →
      sync_go acc snaps = Except.error () := by
  intro snaps
  induction snaps with
  | nil => intro acc h; cases h
  | cons a rest ih =>
    intro acc hmem
    rcases List.mem_cons.mp hmem with rfl | hmem'
    · simp [sync_go, herr]
    · cases hsp : snapshot_to_position a with
      | error e => simp [sync_go, hsp]
      | ok v =>
        cases v with
        | none => simpa [sync_go, hsp] using ih acc hmem'
        | some p => simpa [sync_go, hsp] using ih (ainsert p.symbol p acc) hmem'

/-- C9 counterexample: a batch holding one parsable entry and one entry
whose `size` cannot be parsed makes `sync_state_from_exchange` raise — the
parsable entry is not merged and the exception escapes, so the malformed
entry IS fatal to the batch. -/
theorem C9_reconciliation_cex :
    sync_state_from_exchange [goodSnap, badSnap] = Except.error () := rfl

/-- C9 (amended): reconciliation has no per-entry error handling — if any
entry of a batch fails to parse, the conversion raises and the error
propagates out of `sync_state_from_exchange`, aborting the whole batch
(no partial merge); only zero-size entries are skipped without error. -/
theorem C9_reconciliation_errors :
    (∀ (snaps : List RawSnapshot) (s : RawSnapshot), s ∈ snaps →
      snapshot_to_position s = Except.error () →
      sync_state_from_exchange snaps = Except.error ()) ∧
    (∀ s : RawSnapshot, pyFloat (s.size.orDefault (RawField.num 0)) = Except.ok 0 →
      snapshot_to_position s = Except.ok none) := by
  constructor
  · intro snaps s hmem herr
    exact sync_go_error s herr snaps [] hmem
  · intro s hz
    unfold snapshot_to_position
    rw [hz]
    rfl

/-- C9 witness: the malformed entry alone aborts the batch, and the
zero-size entry converts to `none` (skipped) without error. -/
theorem C9_reconciliation_witness :
    sync_state_from_exchange [badSnap] = Except.error () ∧
    snapshot_to_position zeroSnap = Except.ok none := by
  have h := C9_reconciliation_errors
  exact ⟨h.1 [badSnap] badSnap (by simp) rfl, h.2 zeroSnap rfl⟩

/-! No-snapshot slippage behaviour (C10). -/

theorem set_intent_status_submitted (st : ExecState) (k : String) (s : EntryIntentStatus) :
    (set_intent_status st k s).submitted = st.submitted := rfl

theorem handle_order_update_submitted (st : ExecState) (order : ActiveOrder) (now : ℚ) :
    (handle_order_update st order now).1.submitted = st.submitted := by
  unfold handle_order_update
  simp only
  cases hl : alookup order.intent_id st.entry_intents with
  | none => rfl
  | some intent =>
    cases order.status with
    | NEW => rfl
    | PARTIALLY_FILLED => rfl
    | FILLED => simp [open_position_from_fill]
    | CANCELLED =>
      simp [set_intent_status_submitted, open_position_from_fill,
        apply_ite (@Prod.fst ExecState (List ExecutionReport)),
        apply_ite ExecState.submitted, ite_self]
    | REJECTED => simp [set_intent_status]

theorem submit_order_submitted (st : ExecState) (gw : Gateway) (intent : EntryIntent)
    (order : OrderIntent) (now : ℚ) :
    (submit_order st gw intent order now).submitted = st.submitted ++ [order] := by
  unfold submit_order
  simp only
  cases hgw : gw order with
  | error e => simp [set_intent_status]
  | ok ao =>
    simp only
    split
    case isTrue => rw [handle_order_update_submitted]
    case isFalse => rfl

/-- C10: with no market snapshot for the symbol, `_estimate_slippage`
returns 0; then for every configured slippage cap (the config validates
caps as positive, and `None`/`0` are falsy) the cap comparison cannot trip,
so the market order is always handed to the gateway; and `_build_decision`
called without a snapshot never rejects with `slippage_filter` (the
risk-stage filter is skipped entirely). -/
theorem C10_no_snapshot_slippage :
    (∀ intent : EntryIntent, estimate_slippage intent none = 0) ∧
    (∀ (st : ExecState) (gw : Gateway) (intent : EntryIntent) (decision : RiskDecision)
       (now : ℚ),
      (∀ lim, (decision.metadata.max_slippage_bps <|> st.limits.max_slippage_bps) = some lim →
        0 ≤ lim) →
      (execute_market_intent st gw intent none decision now).submitted
        = st.submitted ++ [market_order_of intent]) ∧
    (∀ (st : RiskEngineState) (sig : Signal) (now : ℚ),
      (st.build_decision sig none now).reason ≠ some "slippage_filter") := by
  refine ⟨fun intent => rfl, ?_, ?_⟩
  · intro st gw intent decision now hcap
    unfold execute_market_intent
    simp only
    have hfalse : ∀ lim,
        (decision.metadata.max_slippage_bps <|> st.limits.max_slippage_bps) = some lim →
        (decide (lim ≠ 0) && decide (estimate_slippage intent none > lim)) = false := by
      intro lim hl
      have h0 := hcap lim hl
      have hle : estimate_slippage intent none ≤ lim := by
        simp only [estimate_slippage]
        linarith
      simp [not_lt.mpr hle]
    cases hc : decision.metadata.max_slippage_bps <|> st.limits.max_slippage_bps with
    | none =>
      simp only [hc]
      rw [if_neg (by simp)]
      rw [submit_order_submitted]
      rfl
    | some lim =>
      simp only [hc]
      rw [if_neg (by rw [hfalse lim hc]; exact Bool.false_ne_true)]
      rw [submit_order_submitted]
      rfl
  · intro st sig now
    unfold RiskEngineState.build_decision
    repeat' split
    all_goals simp_all [apply_ite RiskDecision.reason, RiskDecision.reject, ite_self]
    all_goals repeat' split
    all_goals simp

/-- C10 witness: `intentM` with no snapshot has estimate 0 and its market
order reaches the gateway despite the configured 5 bps cap; the baseline
decision without a snapshot is not slippage-rejected. -/
theorem C10_no_snapshot_witness :
    estimate_slippage intentM none = 0 ∧
    (execute_market_intent stX gwErr intentM none decM 0).submitted
      = [market_order_of intentM] ∧
    (st0.build_decision sig0 none 100).reason ≠ some "slippage_filter" := by
  have h := C10_no_snapshot_slippage
  have h2 := h.2.1 stX gwErr intentM decM 0 (by
    intro lim hl
    simp only [stX, limitsSlip, limits0, decM] at hl
    cases hl
    norm_num)
  exact ⟨h.1 intentM, by simpa [stX] using h2, h.2.2 st0 sig0 100⟩

/-! Entry-intent lifecycle (C7, C8): absence-preservation and fold lemmas. -/

theorem open_position_entry_intents (st : ExecState) (intent : EntryIntent)
    (fill_price qty now : ℚ) :
    (open_position_from_fill st intent fill_price qty now).1.entry_intents
      = amodify intent.intent_id (fun i => { i with status := EntryIntentStatus.FILLED })
          st.entry_intents := rfl

theorem handle_order_update_absent (st : ExecState) (order : ActiveOrder) (now : ℚ) (k : String)
    (h : alookup k st.entry_intents = none) :
    alookup k (handle_order_update st order now).1.entry_intents = none := by
  unfold handle_order_update
  simp only
  cases hl : alookup order.intent_id st.entry_intents with
  | none => simpa using h
  | some intent =>
    cases order.status
    all_goals simp only
    · -- NEW
      simp [alookup_amodify, h]
    · -- PARTIALLY_FILLED
      simp [alookup_amodify, h]
    · -- FILLED
      simp [open_position_entry_intents, alookup_aerase, alookup_amodify, h]
    · -- CANCELLED
      split
      · simp [set_intent_status, open_position_entry_intents, alookup_aerase, alookup_amodify, h]
      · simp [set_intent_status, alookup_aerase, alookup_amodify, h]
    · -- REJECTED
      simp [set_intent_status, alookup_aerase, alookup_amodify, h]

theorem submit_order_absent (st : ExecState) (gw : Gateway) (intent : EntryIntent)
    (order : OrderIntent) (now : ℚ) (k : String) (h : alookup k st.entry_intents = none) :
    alookup k (submit_order st gw intent order now).entry_intents = none := by
  unfold submit_order
  simp only
  cases hgw : gw order with
  | error e => simp [set_intent_status, alookup_amodify, h]
  | ok ao =>
    simp only
    split
    case isTrue => exact handle_order_update_absent _ ao now k h
    case isFalse => exact h

theorem maybe_trigger_limit_absent (st : ExecState) (gw : Gateway) (intent : EntryIntent)
    (m : MarketState) (now : ℚ) (k : String) (h : alookup k st.entry_intents = none) :
    alookup k (maybe_trigger_limit st gw intent m now).entry_intents = none := by
  unfold maybe_trigger_limit
  split
  · exact submit_order_absent _ gw _ _ now k (by simp [alookup_amodify, h])
  · exact h

theorem retest_step_absent (gw : Gateway) (mkts : List (String × MarketState)) (now : ℚ)
    (acc : ExecState × List ExecutionReport) (i : EntryIntent) (k : String)
    (h : alookup k acc.1.entry_intents = none) :
    alookup k (retest_step gw mkts now acc i).1.entry_intents = none := by
  unfold retest_step
  simp only
  split
  · exact h
  · split
    · exact h
    · split
      · simp [set_intent_status, alookup_aerase, alookup_amodify, h]
      · exact maybe_trigger_limit_absent _ gw _ _ now k h

theorem retest_step_reports_mono (gw : Gateway) (mkts : List (String × MarketState)) (now : ℚ)
    (acc : ExecState × List ExecutionReport) (i : EntryIntent) (r : ExecutionReport)
    (h : r ∈ acc.2) : r ∈ (retest_step gw mkts now acc i).2 := by
  unfold retest_step
  simp only
  split
  · exact h
  · split
    · exact h
    · split
      · exact List.mem_append_left _ h
      · exact h

theorem retest_fold_preserves (gw : Gateway) (mkts : List (String × MarketState)) (now : ℚ)
    (l : List EntryIntent) :
    ∀ (acc : ExecState × List ExecutionReport) (k : String) (r : ExecutionReport),
      alookup k acc.1.entry_intents = none → r ∈ acc.2 →
      alookup k (l.foldl (retest_step gw mkts now) acc).1.entry_intents = none ∧
      r ∈ (l.foldl (retest_step gw mkts now) acc).2 := by
  induction l with
  | nil => intro acc k r h1 h2; exact ⟨h1, h2⟩
  | cons i rest ih =>
    intro acc k r h1 h2
    rw [List.foldl_cons]
    exact ih _ k r (retest_step_absent gw mkts now acc i k h1)
      (retest_step_reports_mono gw mkts now acc i r h2)

/-- The cancellation report built by `_activate_limit_retests` for an
expired intent. -/
def ttl_report (intent : EntryIntent) (now : ℚ) : ExecutionReport :=
  { event := ExecutionEventType.ENTRY_CANCELLED, symbol := intent.symbol,
    side := intent.side, quantity := intent.size, price := intent.entry_price,
    timestamp := now, intent_id := some intent.intent_id,
    reason := some "limit_on_retest_ttl" }

theorem retest_step_expired (gw : Gateway) (mkts : List (String × MarketState)) (now : ℚ)
    (acc : ExecState × List ExecutionReport) (intent : EntryIntent) (m : MarketState)
    (htype : intent.entry_type = "limit_on_retest")
    (hmkt : alookup intent.symbol mkts = some m)
    (hexp : intent.is_expired now = true) :
    alookup intent.intent_id (retest_step gw mkts now acc intent).1.entry_intents = none ∧
    ttl_report intent now ∈ (retest_step gw mkts now acc intent).2 := by
  unfold retest_step
  simp only [htype, hmkt, hexp, ne_eq, not_true_eq_false, if_false]
  constructor
  · simp [set_intent_status, alookup_aerase, alookup_amodify]
  · simp [ttl_report]

theorem activate_expired_cancels (st : ExecState) (gw : Gateway)
    (mkts : List (String × MarketState)) (now : ℚ) (intent : EntryIntent) (m : MarketState)
    (hmem : (intent.intent_id, intent) ∈ st.entry_intents)
    (htype : intent.entry_type = "limit_on_retest")
    (hmkt : alookup intent.symbol mkts = some m)
    (hexp : intent.is_expired now = true) :
    alookup intent.intent_id (activate_limit_retests st gw mkts now).1.entry_intents = none ∧
    ttl_report intent now ∈ (activate_limit_retests st gw mkts now).2 := by
  have hv : intent ∈ st.entry_intents.map Prod.snd := List.mem_map_of_mem Prod.snd hmem
  obtain ⟨l1, l2, hsplit⟩ := List.append_of_mem hv
  unfold activate_limit_retests
  rw [hsplit, List.foldl_append, List.foldl_cons]
  have hstep := retest_step_expired gw mkts now
    (List.foldl (retest_step gw mkts now) (st, []) l1) intent m htype hmkt hexp
  exact retest_fold_preserves gw mkts now l2 _ intent.intent_id (ttl_report intent now)
    hstep.1 hstep.2

theorem snapshot_step_entry_intents
    (trailing : Option (PositionState → MarketState → PositionState))
    (mkts : List (String × MarketState)) (now : ℚ)
    (acc : ExecState × List ExecutionReport) (e : String × PositionState) :
    (snapshot_position_step trailing mkts now acc e).1.entry_intents = acc.1.entry_intents := by
  unfold snapshot_position_step
  repeat' split
  all_goals simp [apply_ite ExecState.entry_intents, ite_self]

theorem snapshot_step_reports_mono
    (trailing : Option (PositionState → MarketState → PositionState))
    (mkts : List (String × MarketState)) (now : ℚ)
    (acc : ExecState × List ExecutionReport) (e : String × PositionState)
    (r : ExecutionReport) (h : r ∈ acc.2) :
    r ∈ (snapshot_position_step trailing mkts now acc e).2 := by
  unfold snapshot_position_step
  repeat' split
  all_goals first
    | exact h
    | exact List.mem_append_left _ h

theorem snapshot_fold_preserves
    (trailing : Option (PositionState → MarketState → PositionState))
    (mkts : List (String × MarketState)) (now : ℚ)
    (l : List (String × PositionState)) :
    ∀ (acc : ExecState × List ExecutionReport) (k : String) (r : ExecutionReport),
      alookup k acc.1.entry_intents = none → r ∈ acc.2 →
      alookup k (l.foldl (snapshot_position_step trailing mkts now) acc).1.entry_intents = none ∧
      r ∈ (l.foldl (snapshot_position_step trailing mkts now) acc).2 := by
  induction l with
  | nil => intro acc k r h1 h2; exact ⟨h1, h2⟩
  | cons e rest ih =>
    intro acc k r h1 h2
    rw [List.foldl_cons]
    refine ih _ k r ?_ (snapshot_step_reports_mono trailing mkts now acc e r h2)
    rw [snapshot_step_entry_intents]
    exact h1

theorem handle_order_update_terminal (st : ExecState) (order : ActiveOrder) (now : ℚ)
    (intent : EntryIntent) (hl : alookup order.intent_id st.entry_intents = some intent)
    (hid : intent.intent_id = order.intent_id)
    (hterm : order.status = OrderStatus.FILLED ∨ order.status = OrderStatus.CANCELLED ∨
      order.status = OrderStatus.REJECTED) :
    alookup order.intent_id (handle_order_update st order now).1.entry_intents = none := by
  unfold handle_order_update
  simp only [hl]
  rcases hterm with h | h | h <;> rw [h] <;> simp only
  · simp [open_position_from_fill, alookup_aerase, hid]
  · split <;> simp [set_intent_status, open_position_from_fill, alookup_aerase, hid]
  · simp [set_intent_status, alookup_aerase, hid]

theorem execute_market_reject_keeps (st : ExecState) (gw : Gateway) (intent : EntryIntent)
    (mkt : Option MarketState) (decision : RiskDecision) (now lim : ℚ)
    (hcap : (decision.metadata.max_slippage_bps <|> st.limits.max_slippage_bps) = some lim)
    (h0 : lim ≠ 0) (hgt : lim < estimate_slippage intent mkt)
    (hs : (alookup intent.intent_id st.entry_intents).isSome = true) :
    (alookup intent.intent_id
        (execute_market_intent st gw intent mkt decision now).entry_intents).map
      EntryIntent.status = some EntryIntentStatus.REJECTED := by
  obtain ⟨i0, hi0⟩ := Option.isSome_iff_exists.mp hs
  unfold execute_market_intent
  simp only [hcap]
  rw [if_pos (by simp [h0, hgt])]
  simp [set_intent_status, alookup_amodify, hi0]

theorem submit_error_keeps (st : ExecState) (gw : Gateway) (intent : EntryIntent)
    (order : OrderIntent) (now : ℚ) (hgw : gw order = Except.error ())
    (hs : (alookup intent.intent_id st.entry_intents).isSome = true) :
    (alookup intent.intent_id (submit_order st gw intent order now).entry_intents).map
      EntryIntent.status = some EntryIntentStatus.REJECTED := by
  obtain ⟨i0, hi0⟩ := Option.isSome_iff_exists.mp hs
  unfold submit_order
  simp [hgw, set_intent_status, alookup_amodify, hi0]

/-- C7 counterexample: an approved `market_with_cap` decision whose expected
slippage (205 bps) exceeds the configured 5 bps cap leaves an intent with
the terminal status `REJECTED` inside the live `entry_intents` map after
`handle_risk_decision` returns — and nothing was submitted — so a
terminal-status intent is not always removed from the map. -/
theorem C7_terminal_cex :
    (alookup "im" (handle_risk_decision stX gwErr decM (some mktM) 0 "im").entry_intents).map
        EntryIntent.status = some EntryIntentStatus.REJECTED ∧
    (handle_risk_decision stX gwErr decM (some mktM) 0 "im").submitted = [] := by
  unfold handle_risk_decision
  rw [if_neg (by simp [decM])]
  constructor <;>
    norm_num [execute_market_intent, estimate_slippage, set_intent_status,
      market_order_of, submit_order, ainsert, amodify, alookup, Signal.entry_mode_str, pyOrS,
      stX, limitsSlip, limits0, decM, mktM, sig0]

/-- C7 (amended): an `EntryIntent` reaching a terminal status through a
gateway order update (`FILLED`, `CANCELLED` or `REJECTED`) is removed from
the live `entry_intents` map, and a pending `limit_on_retest` intent
cancelled by TTL expiry is removed as well; but an intent marked `REJECTED`
by the pre-submission slippage check, or by a failed gateway submit, stays
in the live map with its terminal status. -/
theorem C7_terminal_intents :
    (∀ (st : ExecState) (order : ActiveOrder) (now : ℚ) (intent : EntryIntent),
      alookup order.intent_id st.entry_intents = some intent →
      intent.intent_id = order.intent_id →
      (order.status = OrderStatus.FILLED ∨ order.status = OrderStatus.CANCELLED ∨
        order.status = OrderStatus.REJECTED) →
      alookup order.intent_id (handle_order_update st order now).1.entry_intents = none) ∧
    (∀ (st : ExecState) (gw : Gateway) (mkts : List (String × MarketState)) (now : ℚ)
       (intent : EntryIntent) (m : MarketState),
      (intent.intent_id, intent) ∈ st.entry_intents →
      intent.entry_type = "limit_on_retest" →
      alookup intent.symbol mkts = some m → intent.is_expired now = true →
      alookup intent.intent_id (activate_limit_retests st gw mkts now).1.entry_intents = none) ∧
    (∀ (st : ExecState) (gw : Gateway) (intent : EntryIntent) (mkt : Option MarketState)
       (decision : RiskDecision) (now lim : ℚ),
      (decision.metadata.max_slippage_bps <|> st.limits.max_slippage_bps) = some lim →
      lim ≠ 0 → lim < estimate_slippage intent mkt →
      (alookup intent.intent_id st.entry_intents).isSome = true →
      (alookup intent.intent_id
          (execute_market_intent st gw intent mkt decision now).entry_intents).map
        EntryIntent.status = some EntryIntentStatus.REJECTED) ∧
    (∀ (st : ExecState) (gw : Gateway) (intent : EntryIntent) (order : OrderIntent) (now : ℚ),
      gw order = Except.error () →
      (alookup intent.intent_id st.entry_intents).isSome = true →
      (alookup intent.intent_id (submit_order st gw intent order now).entry_intents).map
        EntryIntent.status = some EntryIntentStatus.REJECTED) := by
  refine ⟨handle_order_update_terminal, ?_, execute_market_reject_keeps, submit_error_keeps⟩
  intro st gw mkts now intent m hmem htype hmkt hexp
  exact (activate_expired_cancels st gw mkts now intent m hmem htype hmkt hexp).1

/-- C7 witness: a FILLED order update removes `intent8`; TTL expiry removes
it from the retest loop; `intentM` slippage-rejected in place and a failed
submit both leave a `REJECTED` intent in the live map. -/
theorem C7_terminal_witness :
    alookup "i8" (handle_order_update st8 orderFill 0).1.entry_intents = none ∧
    alookup intent8.intent_id
      (activate_limit_retests st8 gwErr [("BTCUSDT", mkt105)] 60).1.entry_intents = none ∧
    (alookup "im" (execute_market_intent stXi gwErr intentM (some mktM) decM 0).entry_intents).map
      EntryIntent.status = some EntryIntentStatus.REJECTED ∧
    (alookup "im"
        (submit_order stXi gwErr intentM (market_order_of intentM) 0).entry_intents).map
      EntryIntent.status = some EntryIntentStatus.REJECTED := by
  have h := C7_terminal_intents
  have w1 := h.1 st8 orderFill 0 intent8 (by simp [st8, orderFill, intent8, alookup]) rfl
    (Or.inl rfl)
  have w2 := h.2.1 st8 gwErr [("BTCUSDT", mkt105)] 60 intent8 mkt105 (by simp [st8, intent8])
    rfl (by simp [intent8, alookup])
    (by norm_num [EntryIntent.is_expired, EntryIntent.expires_at, intent8])
  have w3 := h.2.2.1 stXi gwErr intentM (some mktM) decM 0 5 rfl (by norm_num)
    (by norm_num [estimate_slippage, intentM, mktM]) (by simp [stXi, intentM, alookup])
  have w4 := h.2.2.2 stXi gwErr intentM (market_order_of intentM) 0 rfl
    (by simp [stXi, intentM, alookup])
  exact ⟨by simpa [orderFill] using w1, w2, by simpa [intentM] using w3,
    by simpa [intentM] using w4⟩

/-- C8 counterexample: `intent8`'s TTL has elapsed at `now = 60`, yet an
`on_market_snapshot` cycle whose `market_states` lack the symbol leaves the
intent pending in the live map and emits no report — TTL expiry is not
evaluated for symbols without a snapshot. -/
theorem C8_ttl_cex :
    intent8.is_expired 60 = true ∧
    (alookup "i8" (on_market_snapshot st8 gwErr none [] 60).1.entry_intents).map
      EntryIntent.status = some EntryIntentStatus.PENDING ∧
    (on_market_snapshot st8 gwErr none [] 60).2 = [] := by
  refine ⟨by norm_num [EntryIntent.is_expired, EntryIntent.expires_at, intent8], ?_, ?_⟩ <;>
    simp [on_market_snapshot, activate_limit_retests, retest_step, snapshot_position_step,
      alookup, st8, intent8]

/-- C8 (amended): every still-pending `limit_on_retest` intent whose TTL has
elapsed and whose symbol HAS a snapshot in the `market_states` passed to
`on_market_snapshot` is cancelled that cycle: the `ENTRY_CANCELLED` report
with reason `limit_on_retest_ttl` referencing the intent is emitted and the
intent is removed from the live map.  (Without a snapshot for the symbol the
TTL check is skipped — see the counterexample.) -/
theorem C8_ttl_cancellation (st : ExecState) (gw : Gateway)
    (trailing : Option (PositionState → MarketState → PositionState))
    (mkts : List (String × MarketState)) (now : ℚ) (intent : EntryIntent) (m : MarketState)
    (hmem : (intent.intent_id, intent) ∈ st.entry_intents)
    (_hst : intent.status = EntryIntentStatus.PENDING)
    (htype : intent.entry_type = "limit_on_retest")
    (hmkt : alookup intent.symbol mkts = some m)
    (hexp : intent.is_expired now = true) :
    alookup intent.intent_id (on_market_snapshot st gw trailing mkts now).1.entry_intents
      = none ∧
    ttl_report intent now ∈ (on_market_snapshot st gw trailing mkts now).2 := by
  have h1 := activate_expired_cancels st gw mkts now intent m hmem htype hmkt hexp
  unfold on_market_snapshot
  exact snapshot_fold_preserves trailing mkts now _ _ _ _ h1.1 h1.2

/-- C8 witness: with a snapshot for BTCUSDT present, the expired `intent8`
is removed by `on_market_snapshot` and the TTL cancellation report is
emitted. -/
theorem C8_ttl_witness :
    alookup intent8.intent_id
      (on_market_snapshot st8 gwErr none [("BTCUSDT", mkt105)] 60).1.entry_intents = none ∧
    ttl_report intent8 60 ∈ (on_market_snapshot st8 gwErr none [("BTCUSDT", mkt105)] 60).2 := by
  have h := C8_ttl_cancellation st8 gwErr none [("BTCUSDT", mkt105)] 60 intent8 mkt105
    (by simp [st8, intent8]) rfl rfl (by simp [intent8, alookup])
    (by norm_num [EntryIntent.is_expired, EntryIntent.expires_at, intent8])
  exact h

/-- C6 counterexample: two same-symbol input signals yield a single
decision — the conflict-pruned signal does not appear in the returned
list, so the list does not contain one decision per input signal. -/
theorem C6_decisions_cex :
    ((st0.assess_signals [sig0, sig1] [] [] 100).2).length = 1 ∧
    [sig0, sig1].length = 2 := by
  constructor
  · norm_num [RiskEngineState.assess_signals, RiskEngineState.assess_loop,
      RiskEngineState.roll_session, RiskEngineState.resolve_conflicts,
      RiskEngineState.priority_value, sort_by_priority, insert_by_priority, dedupe_by_symbol,
      RiskEngineState.build_decision, RiskEngineState.cooldown_active,
      DailyRiskState.breach_limit, RiskLimits.daily_loss_limit, RiskLimits.risk_amount,
      RiskLimits.max_notional, alookup, pyabs, Signal.entry_mode_str, pyOrS, date_of,
      RiskDecision.reject, DailyRiskState.reset, st0, sig0, sig1, limits0]
  · rfl

set_option maxHeartbeats 1600000 in
theorem C4_step1 (p : PositionState) (m1 : MarketState) (t1 : ℚ)
    (hsize : p.size = 1) (hf1 : p.tp1_fired = false) (hf2 : p.tp2_fired = false)
    (hr : p.initial_sl_price ≠ p.entry_price)
    (h1hit : hit_target p.side m1.mid_price (tp_prices p p.risk_per_unit).1 = true)
    (h1not2 : hit_target p.side m1.mid_price (tp_prices p p.risk_per_unit).2 = false)
    (h1stop : hit_stop p.side m1.mid_price p.current_sl_price = false)
    (h1time : ∀ dl, p.time_stop_at = some dl → t1 < dl) :
    evaluate_position_targets p m1 t1 =
      ({ p with
          size := 1/2
          tp1_fired := true
          realized_pnl := p.realized_pnl + calc_pnl p.side p.entry_price m1.mid_price (1/2) },
       false,
       [{ event := ExecutionEventType.TAKE_PROFIT, symbol := p.symbol, side := p.side,
          quantity := 1/2, price := m1.mid_price, timestamp := t1, reason := some "tp1" }]) := by
  have hr0 : 0 < p.risk_per_unit := by
    unfold PositionState.risk_per_unit
    exact pyabs_pos (sub_ne_zero.mpr (Ne.symm hr))
  have hrne : ¬(p.risk_per_unit ≤ 0) := not_le.mpr hr0
  have hdust : ¬((1:ℚ) ≤ 100000000⁻¹) := by norm_num
  have hdust2 : ¬((2⁻¹:ℚ) ≤ 100000000⁻¹) := by norm_num
  have hmin1 : (1:ℚ) ⊓ 2⁻¹ = 2⁻¹ := by norm_num [min_def]
  have hhalf : (1:ℚ) - 2⁻¹ = 2⁻¹ := by norm_num
  have hmax : (0:ℚ) ⊔ 2⁻¹ = 2⁻¹ := by norm_num [max_def]
  cases ht : p.time_stop_at with
  | none =>
    simp [evaluate_position_targets, close_fraction, check_stops, PositionState.reduce,
      PositionState.remaining_size, hf1, hf2, h1hit, h1not2, h1stop, hsize, ht, hrne,
      hdust, hdust2, hmin1, hhalf, hmax]
  | some dl =>
    have hlt : ¬(t1 ≥ dl) := not_le.mpr (h1time dl ht)
    simp [evaluate_position_targets, close_fraction, check_stops, PositionState.reduce,
      PositionState.remaining_size, hf1, hf2, h1hit, h1not2, h1stop, hsize, ht, hrne, hlt,
      hdust, hdust2, hmin1, hhalf, hmax]


set_option maxHeartbeats 1600000 in
theorem C4_step2 (p : PositionState) (m2 : MarketState) (t2 rp : ℚ)
    (hf2 : p.tp2_fired = false)
    (hr : p.initial_sl_price ≠ p.entry_price)
    (h2hit : hit_target p.side m2.mid_price (tp_prices p p.risk_per_unit).2 = true)
    (h2stop : hit_stop p.side m2.mid_price p.current_sl_price = false)
    (h2time : ∀ dl, p.time_stop_at = some dl → t2 < dl) :
    evaluate_position_targets
      { p with size := 1/2, tp1_fired := true, realized_pnl := rp } m2 t2 =
      ({ p with
          size := 3/8
          tp1_fired := true
          tp2_fired := true
          realized_pnl := rp + calc_pnl p.side p.entry_price m2.mid_price (1/8) },
       false,
       [{ event := ExecutionEventType.TAKE_PROFIT, symbol := p.symbol, side := p.side,
          quantity := 1/8, price := m2.mid_price, timestamp := t2, reason := some "tp2" }]) := by
  have hr0 : 0 < pyabs (p.entry_price - p.initial_sl_price) :=
    pyabs_pos (sub_ne_zero.mpr (Ne.symm hr))
  have hrne : ¬(pyabs (p.entry_price - p.initial_sl_price) ≤ 0) := not_le.mpr hr0
  simp [tp_prices, PositionState.risk_per_unit] at h2hit
  have hdust2 : ¬((2⁻¹:ℚ) ≤ 100000000⁻¹) := by norm_num
  have hdust3 : ¬((3:ℚ)/8 ≤ 100000000⁻¹) := by norm_num
  have hmin4 : (1:ℚ) ⊓ 4⁻¹ = 4⁻¹ := by norm_num [min_def]
  have hqty : (2⁻¹:ℚ) * 4⁻¹ = 8⁻¹ := by norm_num
  have hsub : (2⁻¹:ℚ) - 8⁻¹ = 3/8 := by norm_num
  have hmax3 : (0:ℚ) ⊔ (3/8) = 3/8 := by norm_num [max_def]
  cases ht : p.time_stop_at with
  | none =>
    simp [evaluate_position_targets, close_fraction, check_stops, PositionState.reduce,
      PositionState.remaining_size, PositionState.risk_per_unit, tp_prices, hf2, h2hit, h2stop,
      ht, hrne, hdust2, hdust3, hmin4, hqty, hsub, hmax3]
  | some dl =>
    have hlt : ¬(t2 ≥ dl) := not_le.mpr (h2time dl ht)
    simp [evaluate_position_targets, close_fraction, check_stops, PositionState.reduce,
      PositionState.remaining_size, PositionState.risk_per_unit, tp_prices, hf2, h2hit, h2stop,
      ht, hrne, hlt, hdust2, hdust3, hmin4, hqty, hsub, hmax3]


set_option maxHeartbeats 400000 in
/-- C4: For any open position of size 1 with neither take-profit rung yet
fired (and a nonzero initial risk distance), a snapshot that reaches TP1 but
not TP2, does not touch the stop and whose time-stop has not elapsed closes
quantity 1/2 at rung 1; a later snapshot reaching TP2 (stop and time-stop
again untouched) closes 1/4 of the remaining 1/2, i.e. quantity 1/8; after
each step the position is NOT removed from the live map (removed = false)
and the remaining size is 1/2 then 3/8, still carrying its stop, time-stop
and trailing configuration for further supervision. -/
theorem C4_tp_ladder (p : PositionState) (m1 m2 : MarketState) (t1 t2 : ℚ)
    (hsize : p.size = 1) (hf1 : p.tp1_fired = false) (hf2 : p.tp2_fired = false)
    (hr : p.initial_sl_price ≠ p.entry_price)
    (h1hit : hit_target p.side m1.mid_price (tp_prices p p.risk_per_unit).1 = true)
    (h1not2 : hit_target p.side m1.mid_price (tp_prices p p.risk_per_unit).2 = false)
    (h1stop : hit_stop p.side m1.mid_price p.current_sl_price = false)
    (h1time : ∀ dl, p.time_stop_at = some dl → t1 < dl)
    (h2hit : hit_target p.side m2.mid_price (tp_prices p p.risk_per_unit).2 = true)
    (h2stop : hit_stop p.side m2.mid_price p.current_sl_price = false)
    (h2time : ∀ dl, p.time_stop_at = some dl → t2 < dl) :
    ((evaluate_position_targets p m1 t1).2.2.map
        (fun r => (r.event, r.quantity, r.reason))
      = [(ExecutionEventType.TAKE_PROFIT, 1/2, some "tp1")]) ∧
    (evaluate_position_targets p m1 t1).2.1 = false ∧
    (evaluate_position_targets p m1 t1).1.size = 1/2 ∧
    ((evaluate_position_targets (evaluate_position_targets p m1 t1).1 m2 t2).2.2.map
        (fun r => (r.event, r.quantity, r.reason))
      = [(ExecutionEventType.TAKE_PROFIT, 1/8, some "tp2")]) ∧
    (evaluate_position_targets (evaluate_position_targets p m1 t1).1 m2 t2).2.1 = false ∧
    (evaluate_position_targets (evaluate_position_targets p m1 t1).1 m2 t2).1.size = 3/8 := by
  have h1 := C4_step1 p m1 t1 hsize hf1 hf2 hr h1hit h1not2 h1stop h1time
  have h2 := C4_step2 p m2 t2
    (p.realized_pnl + calc_pnl p.side p.entry_price m1.mid_price (1/2)) hf2 hr h2hit h2stop
    h2time
  rw [h1]
  simp only
  rw [h2]
  simp

/-- C4 witness: the long position `posL` (entry 100, stop 95, size 1) at
mid prices 105 then 110 closes 0.5 then 0.125 and keeps 0.375 live. -/
theorem C4_tp_ladder_witness :
    ((evaluate_position_targets posL mkt105 0).2.2.map
        (fun r => (r.event, r.quantity, r.reason))
      = [(ExecutionEventType.TAKE_PROFIT, 1/2, some "tp1")]) ∧
    (evaluate_position_targets posL mkt105 0).2.1 = false ∧
    (evaluate_position_targets posL mkt105 0).1.size = 1/2 ∧
    ((evaluate_position_targets (evaluate_position_targets posL mkt105 0).1 mkt110 1).2.2.map
        (fun r => (r.event, r.quantity, r.reason))
      = [(ExecutionEventType.TAKE_PROFIT, 1/8, some "tp2")]) ∧
    (evaluate_position_targets (evaluate_position_targets posL mkt105 0).1 mkt110 1).2.1
      = false ∧
    (evaluate_position_targets (evaluate_position_targets posL mkt105 0).1 mkt110 1).1.size
      = 3/8 := by
  have h := C4_tp_ladder posL mkt105 mkt110 0 1 rfl rfl rfl
    (by norm_num [posL])
    (by norm_num [hit_target, tp_prices, PositionState.risk_per_unit, pyabs, posL, mkt105])
    (by norm_num [hit_target, tp_prices, PositionState.risk_per_unit, pyabs, posL, mkt105])
    (by norm_num [hit_stop, posL, mkt105])
    (by intro dl hdl; exact absurd hdl (by simp [posL]))
    (by norm_num [hit_target, tp_prices, PositionState.risk_per_unit, pyabs, posL, mkt110])
    (by norm_num [hit_stop, posL, mkt110])
    (by intro dl hdl; exact absurd hdl (by simp [posL]))
  exact h

end Sim
